import Mathlib

/-!
Verification of the ticket-routing decision engine of `freedom_case_2`.

The Go sources are embedded shallowly:

* machine integers (`int`, `int64`) become `Int`; `uint64` arithmetic is done
  in `Nat` with an explicit `% 2 ^ 64`;
* `float64` latitude / longitude / confidence values become `ℚ`; the
  transcendental great-circle distance (`utils.HaversineKm`) is abstracted as
  an explicit function parameter of `SelectOffice`, so every theorem about
  office selection is proved for an arbitrary distance function;
* Go slices become `List`, Go maps become either association lists (when the
  map is enumerated) or `String → Option Int` style lookup functions;
* `map[string]any` payloads (reasoning records, events, samples) become the
  inductive `JVal` below;
* fallible operations (store fetches, AI enrichment, transactional writes)
  are oracles passed to the orchestrator; a run-time panic (indexing an empty
  slice) is modelled by `Option`.

Unicode case folding (`strings.EqualFold`, `ToUpper`, `ToLower`) is embedded
for the ASCII and Cyrillic ranges, which covers every string literal the
routing code compares (`"VIP"`, `"Change of data"`, `"Глав спец"`, language
codes, office names).
-/

namespace FreedomCase

/-- JSON-like dynamic value, mirroring Go's `map[string]any` payloads. -/
inductive JVal where
  | s (v : String)
  | i (v : Int)
  | q (v : Rat)
  | b (v : Bool)
  | arr (vs : List JVal)
  | obj (fields : List (String × JVal))
  | null
deriving Repr

/-! ## Go string primitives (package `strings` / `unicode`), restricted to the
ranges exercised by the routing code. -/

/-- White-space test used by `strings.TrimSpace` (Latin-1 subset of
`unicode.IsSpace`). -/
def goIsSpace (c : Char) : Bool :=
  c == ' ' || c == '\t' || c == '\n' || c == Char.ofNat 0x0B ||
  c == Char.ofNat 0x0C || c == '\r' || c == Char.ofNat 0x85 || c == Char.ofNat 0xA0

/-- Simple lower-case folding on the ASCII and Cyrillic letter ranges. -/
def goToLowerChar (c : Char) : Char :=
  if 'A' ≤ c ∧ c ≤ 'Z' then Char.ofNat (c.toNat + 32)
  else if Char.ofNat 0x410 ≤ c ∧ c ≤ Char.ofNat 0x42F then Char.ofNat (c.toNat + 32)
  else if c = Char.ofNat 0x401 then Char.ofNat 0x451
  else c

/-- Simple upper-case folding on the ASCII and Cyrillic letter ranges. -/
def goToUpperChar (c : Char) : Char :=
  if 'a' ≤ c ∧ c ≤ 'z' then Char.ofNat (c.toNat - 32)
  else if Char.ofNat 0x430 ≤ c ∧ c ≤ Char.ofNat 0x44F then Char.ofNat (c.toNat - 32)
  else if c = Char.ofNat 0x451 then Char.ofNat 0x401
  else c

/-- Character-list core of `strings.EqualFold` (simple case folding). -/
def equalFoldChars : List Char → List Char → Bool
  | [], [] => true
  | c :: cs, d :: ds => goToLowerChar c == goToLowerChar d && equalFoldChars cs ds
  | _, _ => false

/-- Embedding of `strings.EqualFold`. -/
def equalFold (a b : String) : Bool :=
  equalFoldChars a.data b.data

/-- Embedding of `strings.TrimSpace`. -/
def goTrimSpace (s : String) : String :=
  ⟨((s.data.dropWhile goIsSpace).reverse.dropWhile goIsSpace).reverse⟩

/-- Embedding of `strings.ToUpper`. -/
def goToUpper (s : String) : String :=
  ⟨s.data.map goToUpperChar⟩

/-- Embedding of `strings.ToLower`. -/
def goToLower (s : String) : String :=
  ⟨s.data.map goToLowerChar⟩

/-- Does `pat` occur at the head of `l`? (helper for `strings.Contains`). -/
def leadsWith : List Char → List Char → Bool
  | [], _ => true
  | _ :: _, [] => false
  | p :: ps, c :: cs => p == c && leadsWith ps cs

/-- Character-list core of `strings.Contains`. -/
def containsChars (pat : List Char) : List Char → Bool
  | [] => leadsWith pat []
  | c :: cs => leadsWith pat (c :: cs) || containsChars pat cs

/-- Embedding of `strings.Contains s sub`. -/
def goContains (s sub : String) : Bool :=
  containsChars sub.data s.data

/-! ## `utils` package -/

/-- UTF-8 byte encoding of one code point, as Go's `[]byte(string)` produces. -/
def utf8Bytes (c : Char) : List Nat :=
  let n := c.toNat
  if n < 0x80 then [n]
  else if n < 0x800 then
    [0xC0 ||| (n >>> 6), 0x80 ||| (n &&& 0x3F)]
  else if n < 0x10000 then
    [0xE0 ||| (n >>> 12), 0x80 ||| ((n >>> 6) &&& 0x3F), 0x80 ||| (n &&& 0x3F)]
  else
    [0xF0 ||| (n >>> 18), 0x80 ||| ((n >>> 12) &&& 0x3F),
     0x80 ||| ((n >>> 6) &&& 0x3F), 0x80 ||| (n &&& 0x3F)]

/-- One step of the 64-bit FNV-1a hash. -/
def fnv1aStep (h b : Nat) : Nat :=
  ((h ^^^ b) * 1099511628211) % 2 ^ 64

/-- Embedding of `utils.HashStringToUint64`: 64-bit FNV-1a over the UTF-8
bytes of `s` (Go `hash/fnv`, `New64a`). -/
def HashStringToUint64 (s : String) : Nat :=
  (s.data.flatMap utf8Bytes).foldl fnv1aStep 14695981039346656037

/-! ## Data model (`models` package) -/

/-- Embedding of `models.Ticket`. -/
structure Ticket where
  ID : String
  CreatedAt : Int := 0
  Segment : String := ""
  City : String := ""
  Address : String := ""
  Message : String := ""
deriving Repr, DecidableEq

/-- Embedding of `models.Manager`. -/
structure Manager where
  ID : String
  Name : String := ""
  Office : String := ""
  Role : String := ""
  Skills : List String := []
  CurrentLoad : Int := 0
deriving Repr, DecidableEq

/-- Embedding of `models.BusinessUnit`; the routing code treats coordinates
as optional (`Lat`/`Lon` may be absent), hence `Option ℚ`. -/
structure BusinessUnit where
  ID : String := ""
  Name : String
  City : String := ""
  Lat : Option Rat := none
  Lon : Option Rat := none
deriving Repr, DecidableEq

/-- Embedding of `models.AIAnalysis` (the enrichment result); the Go field
`Type` is called `AType` here because `Type` is a Lean keyword. -/
structure AIAnalysis where
  ID : String := ""
  TicketID : String := ""
  AType : String := ""
  Sentiment : String := ""
  Priority : Int := 0
  Language : String := ""
  Summary : String := ""
  Recommendation : String := ""
  Lat : Rat := 0
  Lon : Rat := 0
  Confidence : Rat := 0
  ModelVersion : String := ""
  CreatedAt : Int := 0
deriving Repr, DecidableEq

/-- Embedding of `models.Assignment` (the outcome row); `Reasoning` is the
structured record instead of marshalled JSON bytes. -/
structure Assignment where
  TicketID : String
  ManagerID : Option String
  Office : String
  Status : String
  ReasonCode : String
  ReasonText : String
  Reasoning : JVal
  AssignedAt : Int
deriving Repr

/-! ## Eligibility filtering (`service` package, stage-tracked variant) -/

/-- Embedding of `service.EligibilityStage`. -/
structure EligibilityStage where
  Name : String
  Candidates : List Manager
deriving Repr

/-- Embedding of `service.EligibilityResult`. -/
structure EligibilityResult where
  Eligible : List Manager := []
  ReasonCode : String := ""
  ReasonText : String := ""
  Stages : List EligibilityStage := []
  NeedsVIP : Bool := false
  NeedsRole : Bool := false
  NeedsLang : String := ""
deriving Repr

/-- Go zero value `EligibilityResult{}`, used by the local-assignment
reasoning call in `ProcessTickets`. -/
def EligibilityResult.zero : EligibilityResult := {}

/-- Embedding of `service.hasSkill`. -/
def hasSkill (skills : List String) (target : String) : Bool :=
  skills.any fun s => equalFold (goTrimSpace s) target

/-- `needsVIP` condition of `FilterEligibleManagers`:
`strings.EqualFold(strings.TrimSpace(ticket.Segment), "VIP") || ai.Priority >= 9`. -/
def needsVIPFor (ticket : Ticket) (ai : AIAnalysis) : Bool :=
  equalFold (goTrimSpace ticket.Segment) "VIP" || decide (ai.Priority ≥ 9)

/-- `needsRole` condition:
`strings.EqualFold(strings.TrimSpace(ai.Type), "Change of data")`. -/
def needsRoleFor (ai : AIAnalysis) : Bool :=
  equalFold (goTrimSpace ai.AType) "Change of data"

/-- `needsLang` value: `strings.ToUpper(strings.TrimSpace(ai.Language))`. -/
def needsLangFor (ai : AIAnalysis) : String :=
  goToUpper (goTrimSpace ai.Language)

/-- The language rule applies exactly to the three canonical codes. -/
def langApplies (nl : String) : Bool :=
  nl == "KZ" || nl == "ENG" || nl == "RU"

/-- The `vip_rule` filter body. -/
def vipFilter (ms : List Manager) : List Manager :=
  ms.filter (fun m => hasSkill m.Skills "VIP")

/-- The `role_rule` filter body. -/
def roleFilter (ms : List Manager) : List Manager :=
  ms.filter (fun m => equalFold (goTrimSpace m.Role) "Глав спец")

/-- The `language_rule` filter body. -/
def langFilter (ms : List Manager) (nl : String) : List Manager :=
  ms.filter (fun m => hasSkill m.Skills nl)

/-- Candidates after the `vip_rule` stage. -/
def afterVIPof (managers : List Manager) (ticket : Ticket) (ai : AIAnalysis) :
    List Manager :=
  if needsVIPFor ticket ai then vipFilter managers else managers

/-- Candidates after the `role_rule` stage. -/
def afterRoleOf (managers : List Manager) (ticket : Ticket) (ai : AIAnalysis) :
    List Manager :=
  if needsRoleFor ai then roleFilter (afterVIPof managers ticket ai)
  else afterVIPof managers ticket ai

/-- Candidates after the `language_rule` stage. -/
def afterLangOf (managers : List Manager) (ticket : Ticket) (ai : AIAnalysis) :
    List Manager :=
  if langApplies (needsLangFor ai) then
    langFilter (afterRoleOf managers ticket ai) (needsLangFor ai)
  else afterRoleOf managers ticket ai

/-- Embedding of `service.FilterEligibleManagers` (the stage-tracked
variant): ordered hard-rule stages `office_candidates`, `vip_rule`,
`role_rule`, `language_rule` with early return on an empty applicable
stage.  The Go sequential locals `afterVIP`, `afterRole`, `afterLang` are
the named functions `afterVIPof`, `afterRoleOf`, `afterLangOf` above. -/
def FilterEligibleManagers (managers : List Manager) (ticket : Ticket)
    (ai : AIAnalysis) : EligibilityResult :=
  let base : EligibilityResult :=
    { NeedsVIP := needsVIPFor ticket ai, NeedsRole := needsRoleFor ai,
      NeedsLang := needsLangFor ai }
  if managers.isEmpty then
    { base with ReasonCode := "NO_ELIGIBLE_MANAGERS",
                ReasonText := "No managers in selected office",
                Stages := [⟨"office_candidates", managers⟩] }
  else if needsVIPFor ticket ai && (afterVIPof managers ticket ai).isEmpty then
    { base with ReasonCode := "VIP_REQUIRED_NO_MATCH",
                ReasonText := "VIP skill required",
                Stages := [⟨"office_candidates", managers⟩,
                           ⟨"vip_rule", afterVIPof managers ticket ai⟩] }
  else if needsRoleFor ai && (afterRoleOf managers ticket ai).isEmpty then
    { base with ReasonCode := "ROLE_MISMATCH",
                ReasonText := "Role must be Глав спец",
                Stages := [⟨"office_candidates", managers⟩,
                           ⟨"vip_rule", afterVIPof managers ticket ai⟩,
                           ⟨"role_rule", afterRoleOf managers ticket ai⟩] }
  else if langApplies (needsLangFor ai) &&
      (afterLangOf managers ticket ai).isEmpty then
    { base with ReasonCode := "LANGUAGE_MISMATCH",
                ReasonText := "Language skill required",
                Stages := [⟨"office_candidates", managers⟩,
                           ⟨"vip_rule", afterVIPof managers ticket ai⟩,
                           ⟨"role_rule", afterRoleOf managers ticket ai⟩,
                           ⟨"language_rule", afterLangOf managers ticket ai⟩] }
  else
    { base with Eligible := afterLangOf managers ticket ai,
                Stages := [⟨"office_candidates", managers⟩,
                           ⟨"vip_rule", afterVIPof managers ticket ai⟩,
                           ⟨"role_rule", afterRoleOf managers ticket ai⟩,
                           ⟨"language_rule", afterLangOf managers ticket ai⟩] }

/-! ## Assignment picking -/

/-- Lexicographic strict order on character lists by code point, matching
Go's byte-wise `<` on UTF-8 strings. -/
def strLTb : List Char → List Char → Bool
  | [], [] => false
  | [], _ :: _ => true
  | _ :: _, [] => false
  | a :: as, b :: bs =>
    if a.toNat < b.toNat then true
    else if b.toNat < a.toNat then false
    else strLTb as bs

/-- Go's `s < t` on strings (byte-wise comparison). -/
def goStrLT (a b : String) : Bool := strLTb a.data b.data

lemma strLTb_cons (a b : Char) (as bs : List Char) :
    strLTb (a :: as) (b :: bs) = true ↔
      (a.toNat < b.toNat ∨ (a.toNat = b.toNat ∧ strLTb as bs = true)) := by
  simp only [strLTb]
  split_ifs with h1 h2
  · simp [h1]
  · simp only [false_iff]
    rintro (h | ⟨h, -⟩) <;> omega
  · have he : a.toNat = b.toNat := by omega
    simp [he]

lemma strLTb_asymm : ∀ a b : List Char, strLTb a b = true → strLTb b a = false
  | [], [] => by simp [strLTb]
  | [], _ :: _ => by simp [strLTb]
  | _ :: _, [] => by simp [strLTb]
  | a :: as, b :: bs => by
    intro h
    rw [strLTb_cons] at h
    cases hba : strLTb (b :: bs) (a :: as) with
    | false => rfl
    | true =>
      exfalso
      rw [strLTb_cons] at hba
      rcases h with h | ⟨e, h'⟩ <;> rcases hba with h2 | ⟨e2, h2'⟩
      · omega
      · omega
      · omega
      · have := strLTb_asymm as bs h'
        rw [h2'] at this
        exact Bool.noConfusion this

lemma strLTb_trans : ∀ a b c : List Char,
    strLTb a b = true → strLTb b c = true → strLTb a c = true
  | [], [], _ => by simp [strLTb]
  | [], _ :: _, [] => by simp [strLTb]
  | [], _ :: _, _ :: _ => by simp [strLTb]
  | _ :: _, [], _ => by simp [strLTb]
  | _ :: _, _ :: _, [] => by simp [strLTb]
  | a :: as, b :: bs, c :: cs => by
    intro h1 h2
    rw [strLTb_cons] at h1 h2 ⊢
    rcases h1 with h1 | ⟨e1, h1'⟩ <;> rcases h2 with h2 | ⟨e2, h2'⟩
    · exact Or.inl (by omega)
    · exact Or.inl (by omega)
    · exact Or.inl (by omega)
    · exact Or.inr ⟨by omega, strLTb_trans as bs cs h1' h2'⟩

lemma strLTb_eq_of_not : ∀ a b : List Char,
    strLTb a b = false → strLTb b a = false → a = b
  | [], [] => by simp
  | [], _ :: _ => by simp [strLTb]
  | _ :: _, [] => by simp [strLTb]
  | a :: as, b :: bs => by
    intro hab hba
    have hab' : ¬ (a.toNat < b.toNat ∨ (a.toNat = b.toNat ∧ strLTb as bs = true)) := by
      rw [← strLTb_cons a b as bs, hab]
      simp
    have hba' : ¬ (b.toNat < a.toNat ∨ (b.toNat = a.toNat ∧ strLTb bs as = true)) := by
      rw [← strLTb_cons b a bs as, hba]
      simp
    push_neg at hab' hba'
    have he : a.toNat = b.toNat := by omega
    have htab : strLTb as bs = false := by
      cases h : strLTb as bs with
      | false => rfl
      | true => exact absurd h (by simpa using hab'.2 he)
    have htba : strLTb bs as = false := by
      cases h : strLTb bs as with
      | false => rfl
      | true => exact absurd h (by simpa using hba'.2 he.symm)
    have hc : a = b := Char.ext (UInt32.toNat.inj he)
    rw [hc, strLTb_eq_of_not as bs htab htba]

/-- Sort order used by `service.PickAssignee`: ascending `CurrentLoad`,
ties broken by ascending manager ID (the reflexive closure of the Go
`sort.Slice` comparator; IDs compare byte-wise as in Go). -/
def ManagerLE (a b : Manager) : Prop :=
  a.CurrentLoad < b.CurrentLoad ∨
    (a.CurrentLoad = b.CurrentLoad ∧ goStrLT b.ID a.ID = false)

instance : DecidableRel ManagerLE := fun a b =>
  inferInstanceAs (Decidable (a.CurrentLoad < b.CurrentLoad ∨
    (a.CurrentLoad = b.CurrentLoad ∧ goStrLT b.ID a.ID = false)))

instance : IsTotal Manager ManagerLE where
  total a b := by
    rcases lt_trichotomy a.CurrentLoad b.CurrentLoad with h | h | h
    · exact Or.inl (Or.inl h)
    · cases hba : goStrLT b.ID a.ID with
      | false => exact Or.inl (Or.inr ⟨h, hba⟩)
      | true =>
        exact Or.inr (Or.inr ⟨h.symm, strLTb_asymm _ _ hba⟩)
    · exact Or.inr (Or.inl h)

instance : IsTrans Manager ManagerLE where
  trans a b c hab hbc := by
    rcases hab with h1 | ⟨e1, i1⟩
    · rcases hbc with h2 | ⟨e2, _⟩
      · exact Or.inl (h1.trans h2)
      · exact Or.inl (e2 ▸ h1)
    · rcases hbc with h2 | ⟨e2, i2⟩
      · exact Or.inl (e1 ▸ h2)
      · refine Or.inr ⟨e1.trans e2, ?_⟩
        simp only [goStrLT] at i1 i2 ⊢
        cases hca : strLTb c.ID.data a.ID.data with
        | false => rfl
        | true =>
          exfalso
          cases hbc' : strLTb b.ID.data c.ID.data with
          | true =>
            have := strLTb_trans _ _ _ hbc' hca
            rw [this] at i1
            exact Bool.noConfusion i1
          | false =>
            have hbceq : b.ID.data = c.ID.data := strLTb_eq_of_not _ _ hbc' i2
            have : strLTb b.ID.data a.ID.data = true := by
              rw [hbceq]; exact hca
            rw [this] at i1
            exact Bool.noConfusion i1

/-- Embedding of `service.PickAssignee`. `none` models the Go run-time panic
(modulo by zero) on an empty eligible slice; otherwise the pair is
`(chosen manager, considered set)`. -/
def PickAssignee (ticketID : String) (eligible : List Manager) :
    Option (Manager × List Manager) :=
  let sorted := eligible.insertionSort ManagerLE
  if sorted.length ≤ 2 then
    match sorted[HashStringToUint64 ticketID % sorted.length]? with
    | some m => some (m, sorted)
    | none => none
  else
    let top2 := sorted.take 2
    match top2[HashStringToUint64 ticketID % 2]? with
    | some m => some (m, top2)
    | none => none

/-! ## Cross-office escalation -/

/-- Result record of the cross-office escalator (contract of
`service.EvaluateCrossOffice`, shaped after its call sites and tests). -/
structure CrossOfficeResult where
  Assigned : Bool
  CrossOffice : Bool
  Local : EligibilityResult
  Global : EligibilityResult
  ReasonCode : String
  ReasonText : String
deriving Repr

/-- Modelled from the spec: the body of `service.EvaluateCrossOffice` is not
among the provided sources (only its callers and tests are), so it is
reconstructed from §4.3 of the specification: run the identical eligibility
filter against the local candidates and the entire roster; a non-empty
global pass assigns with `ASSIGNED_CROSS_OFFICE`, an empty one reports
`NO_ELIGIBLE_MANAGERS_GLOBAL`, keeping both filter results for the
reasoning record. -/
def EvaluateCrossOffice (localCandidates globalRoster : List Manager)
    (ticket : Ticket) (ai : AIAnalysis) : CrossOfficeResult :=
  if (FilterEligibleManagers globalRoster ticket ai).Eligible.length > 0 then
    { Assigned := true, CrossOffice := true,
      Local := FilterEligibleManagers localCandidates ticket ai,
      Global := FilterEligibleManagers globalRoster ticket ai,
      ReasonCode := "ASSIGNED_CROSS_OFFICE",
      ReasonText := "Assigned via cross-office escalation" }
  else
    { Assigned := false, CrossOffice := false,
      Local := FilterEligibleManagers localCandidates ticket ai,
      Global := FilterEligibleManagers globalRoster ticket ai,
      ReasonCode := "NO_ELIGIBLE_MANAGERS_GLOBAL",
      ReasonText := "No eligible managers in any office" }

/-! ## Normalization helpers (`service` package) -/

/-- Embedding of `service.normalizeAIType`. -/
def normalizeAIType (value : String) : String :=
  let v := goToLower (goTrimSpace value)
  if v == "complaint" || v == "жалоба" then "Complaint"
  else if v == "consultation" || v == "консультация" then "Consultation"
  else if v == "fraud" || v == "мошеннические действия" then "Fraud"
  else if v == "change of data" || v == "смена данных" then "Change of data"
  else if v == "technical issue" || v == "нерaботоспособность приложения"
       || v == "неработоспособность приложения" then "Technical issue"
  else if v == "spam" || v == "спам" then "Spam"
  else goTrimSpace value

/-- Embedding of `service.normalizeLanguage`. -/
def normalizeLanguage (value : String) : String :=
  let v := goToUpper (goTrimSpace value)
  if v == "RU" || v == "RUS" || v == "RUSSIAN" then "RU"
  else if v == "KZ" || v == "KAZ" || v == "KAZAKH" then "KZ"
  else if v == "EN" || v == "ENG" || v == "ENGLISH" then "ENG"
  else v

/-- Embedding of `service.normalizeAI`. -/
def normalizeAI (ai : AIAnalysis) : AIAnalysis :=
  { ai with AType := normalizeAIType ai.AType,
            Language := normalizeLanguage ai.Language }

/-- Embedding of `service.normalizeOfficeEnum`. -/
def normalizeOfficeEnum (value : String) : String :=
  let v := goToLower (goTrimSpace value)
  if v == "" then ""
  else if goContains v "астан" || goContains v "astan" ||
          goContains v "nur-sultan" || goContains v "nursultan" then "ASTANA"
  else if goContains v "алмат" || goContains v "almat" then "ALMATY"
  else goTrimSpace value

/-! ## Office selection -/

/-- Does this office carry both coordinates? -/
def hasCoords (u : BusinessUnit) : Bool :=
  u.Lat.isSome && u.Lon.isSome

/-- Distance of `u` from `(lat, lon)` under the distance function `dist`
(defaulting absent coordinates, which callers rule out via `hasCoords`). -/
def unitDist (dist : Rat → Rat → Rat → Rat → Rat) (lat lon : Rat)
    (u : BusinessUnit) : Rat :=
  dist lat lon (u.Lat.getD 0) (u.Lon.getD 0)

/-- The minimum-distance scan of `service.SelectOffice`: walk the offices in
order, skip those without coordinates, keep the current best only when a
strictly smaller distance appears (so the first seen wins exact ties). -/
def bestGeoAux (dist : Rat → Rat → Rat → Rat → Rat) (lat lon : Rat)
    (acc : Option (BusinessUnit × Rat)) :
    List BusinessUnit → Option (BusinessUnit × Rat)
  | [] => acc
  | u :: rest =>
    if hasCoords u then
      let d := unitDist dist lat lon u
      match acc with
      | none => bestGeoAux dist lat lon (some (u, d)) rest
      | some (bu, bd) =>
        if d < bd then bestGeoAux dist lat lon (some (u, d)) rest
        else bestGeoAux dist lat lon (some (bu, bd)) rest
    else bestGeoAux dist lat lon acc rest

/-- The `0.70` confidence threshold of `SelectOffice`, written as the
reduced rational `7/10` in literal form (so that kernel evaluation of the
comparison works on concrete inputs). -/
def confidenceThreshold : Rat := ⟨7, 10, by decide, by decide⟩

lemma confidenceThreshold_eq : confidenceThreshold = 7/10 := by
  rw [confidenceThreshold, Rat.mk'_eq_divInt, Rat.divInt_eq_div]
  norm_num

/-- Embedding of `service.SelectOffice` (current variant, with optional
office coordinates). `dist` abstracts `utils.HaversineKm`, whose
floating-point transcendental body is not reproduced; every theorem below
holds for an arbitrary distance function. -/
def SelectOffice (dist : Rat → Rat → Rat → Rat → Rat) (ticketID : String)
    (ai : AIAnalysis) (units : List BusinessUnit) : String × Bool :=
  if decide (ai.Confidence ≥ confidenceThreshold) && decide (0 < units.length) then
    match bestGeoAux dist ai.Lat ai.Lon none units with
    | some (u, _) => (normalizeOfficeEnum u.Name, true)
    | none =>
      if HashStringToUint64 ticketID % 2 = 0 then ("ASTANA", false)
      else ("ALMATY", false)
  else
    if HashStringToUint64 ticketID % 2 = 0 then ("ASTANA", false)
    else ("ALMATY", false)

/-! ## Reasoning builder -/

/-- Field lookup in a `JVal` object (first match, as Go map access). -/
def JVal.getField : JVal → String → Option JVal
  | .obj fields, k => (fields.find? (fun f => f.1 == k)).map (·.2)
  | _, _ => none

/-- Element lookup in a `JVal` array. -/
def JVal.getIdx (v : JVal) (i : Nat) : Option JVal :=
  match v with
  | .arr vs => vs[i]?
  | _ => none

/-- Embedding of `service.stageCount`. -/
def stageCount (elig : EligibilityResult) (name : String) : Nat :=
  match elig.Stages.find? (fun st => st.Name == name) with
  | some st => st.Candidates.length
  | none => 0

/-- Embedding of `service.buildAttempt`. -/
def buildAttempt (scope office : String) (elig : EligibilityResult)
    (failedReason : String) (fallbackUsed : Bool) : JVal :=
  let counts := JVal.obj
    [("in_office", .i (stageCount elig "office_candidates")),
     ("after_vip", .i (stageCount elig "vip_rule")),
     ("after_role", .i (stageCount elig "role_rule")),
     ("after_language", .i (stageCount elig "language_rule"))]
  JVal.obj ([("scope", .s scope), ("counts", counts)]
    ++ (if office ≠ "" then [("office", JVal.s office)] else [])
    ++ (if fallbackUsed then [("fallback_used", JVal.b true)] else [])
    ++ (if failedReason ≠ "" then [("failed_reason_code", JVal.s failedReason)] else []))

/-- Embedding of `service.buildCrossOfficeReasoning`; note that no clock or
random source occurs among its arguments or in its body. -/
def buildCrossOfficeReasoning (office : String) (usedGeo : Bool)
    (ai : AIAnalysis) (loc glob : EligibilityResult) (crossOffice : Bool)
    (top2 : List Manager) (picked : Option Manager) (hashMod : Nat) : JVal :=
  let locFailed :=
    if loc.Eligible.isEmpty then
      (if loc.ReasonCode == "" then "NO_ELIGIBLE_MANAGERS" else loc.ReasonCode)
    else ""
  let attempts :=
    [buildAttempt "LOCAL" office loc locFailed false]
    ++ (if crossOffice then
          [buildAttempt "GLOBAL" ""
            glob
            (if glob.Eligible.isEmpty then
               (if glob.ReasonCode == "" then "NO_ELIGIBLE_MANAGERS"
                else glob.ReasonCode)
             else "")
            true]
        else [])
  let top2Payload :=
    if top2.isEmpty then JVal.null
    else JVal.arr (top2.map fun m =>
      JVal.obj [("manager_id", .s m.ID), ("load", .i m.CurrentLoad)])
  let pickedPayload :=
    match picked with
    | some p => JVal.obj [("manager_id", .s p.ID),
        ("method", .s "deterministic_round_robin"),
        ("hash_mod", .i hashMod)]
    | none => JVal.null
  JVal.obj
    [("office_selected", .s office),
     ("office_rule", .s (if usedGeo then "nearest_by_geo" else "fallback_50_50")),
     ("attempts", .arr attempts),
     ("top2", top2Payload),
     ("picked", pickedPayload),
     ("fallback_cross_office", .b crossOffice),
     ("geo", .obj [("lat", .q ai.Lat), ("lon", .q ai.Lon),
                   ("confidence", .q ai.Confidence)])]

/-! ## Run orchestrator (`service.ProcessTickets`, current variant)

External collaborators become oracles: `enrich` is the AI adapter, `dbOk`
tells whether the n-th transactional write succeeds, `now` is the value the
wall clock returns during the run.  The write trace is returned so that
persisted outcomes are observable. -/

/-- One attempted transactional write of an outcome row. -/
structure WriteAttempt where
  row : Assignment
  ok : Bool
deriving Repr

/-- Environment of one orchestrator run. -/
structure RunCtx where
  dist : Rat → Rat → Rat → Rat → Rat
  units : List BusinessUnit
  allManagers : List Manager
  enrich : Ticket → Except String (AIAnalysis × Int)
  dbOk : Nat → Bool
  now : Int
  debug : Bool

/-- Mutable state threaded through one run. -/
structure RunState where
  loads : String → Option Int
  writes : List WriteAttempt
  nWrites : Nat
  enrichedCount : Nat
  latencyTotal : Int
  geoCoverage : Nat
  fallbackCount : Nat
  assignedCount : Nat
  assignedLocalCount : Nat
  assignedCrossOfficeCount : Nat
  unassignedCount : Nat
  unassignedGlobalCount : Nat
  aiErrors : Nat
  topUnassignedReasons : List (String × Nat)
  samples : List JVal

/-- Embedding of the load-snapshot seeding loop (`loadMap[m.ID] = m.CurrentLoad`
over all managers; later entries overwrite earlier ones, as for a Go map). -/
def seedLoads (managers : List Manager) : String → Option Int :=
  managers.foldl
    (fun f m => fun id => if id = m.ID then some m.CurrentLoad else f id)
    (fun _ => none)

/-- Embedding of the `managerByOffice` grouping: managers of one office, in
roster order. -/
def managerByOffice (managers : List Manager) (office : String) : List Manager :=
  managers.filter (fun m => m.Office == office)

/-- Embedding of `service.applyLoads`: stamp each manager with the in-run
load snapshot (`0` when the snapshot has no entry). -/
def applyLoads (managers : List Manager) (loadMap : String → Option Int) :
    List Manager :=
  managers.map fun m => { m with CurrentLoad := (loadMap m.ID).getD 0 }

/-- Embedding of `loadMap[id] = loadMap[id] + 1` (a missing entry reads 0). -/
def bumpLoad (loadMap : String → Option Int) (id : String) :
    String → Option Int :=
  fun id' => if id' = id then some ((loadMap id).getD 0 + 1) else loadMap id'

/-- Embedding of `topUnassignedReasons[reason]++` over an association list. -/
def bumpReason : List (String × Nat) → String → List (String × Nat)
  | [], k => [(k, 1)]
  | (k', n) :: rest, k =>
    if k' = k then (k', n + 1) :: rest else (k', n) :: bumpReason rest k

/-- Histogram lookup (missing key reads 0). -/
def lookupReason (l : List (String × Nat)) (k : String) : Nat :=
  ((l.find? (fun p => p.1 == k)).map (·.2)).getD 0

/-- The outcome row assembled by `ProcessingService.writeAssignment`
(`models.Assignment` with `AssignedAt = time.Now()`). -/
def outcomeRow (ctx : RunCtx) (t : Ticket) (manager : Option Manager)
    (office status reasonCode reasonText : String) (reasoning : JVal) :
    Assignment :=
  { TicketID := t.ID, ManagerID := manager.map (·.ID), Office := office,
    Status := status, ReasonCode := reasonCode, ReasonText := reasonText,
    Reasoning := reasoning, AssignedAt := ctx.now }

/-- Embedding of `ProcessingService.writeAssignment`: one transactional
attempt (AI upsert + outcome row), recorded in the trace with its success
bit, consuming one `dbOk` index. -/
def writeAssignment (ctx : RunCtx) (st : RunState) (t : Ticket)
    (manager : Option Manager) (office status reasonCode reasonText : String)
    (reasoning : JVal) : Bool × RunState :=
  let ok := ctx.dbOk st.nWrites
  (ok,
    { st with
      nWrites := st.nWrites + 1
      writes := st.writes ++
        [⟨outcomeRow ctx t manager office status reasonCode reasonText reasoning, ok⟩] })

/-- Embedding of `ProcessingService.writeAssignmentError` (status `ERROR`,
office `UNKNOWN`, details as the reasoning payload; the caller ignores the
returned error). -/
def writeAssignmentError (ctx : RunCtx) (st : RunState) (t : Ticket)
    (reasonCode reasonText : String) (details : JVal) : RunState :=
  (writeAssignment ctx st t none "UNKNOWN" "ERROR" reasonCode reasonText details).2

/-- Embedding of the `geoCoverage++` / `fallbackCount++` branch of the
ticket loop. -/
def bumpGeoCounters (st : RunState) (usedGeo : Bool) : RunState :=
  if usedGeo then { st with geoCoverage := st.geoCoverage + 1 }
  else { st with fallbackCount := st.fallbackCount + 1 }

/-- Embedding of one iteration of the `ProcessTickets` ticket loop.
`none` models a Go run-time panic (proved unreachable below). -/
def processOneTicket (ctx : RunCtx) (st : RunState) (t : Ticket) :
    Option RunState :=
  match ctx.enrich t with
  | .error e =>
    some (writeAssignmentError ctx { st with aiErrors := st.aiErrors + 1 } t
      "AI_ERROR" "AI enrichment failed" (JVal.obj [("error", .s e)]))
  | .ok (ai0, latencyMs) =>
    let aiResult := normalizeAI ai0
    let st := { st with enrichedCount := st.enrichedCount + 1,
                        latencyTotal := st.latencyTotal + latencyMs }
    let sel := SelectOffice ctx.dist t.ID aiResult ctx.units
    let office := sel.1
    let usedGeo := sel.2
    let st := bumpGeoCounters st usedGeo
    let managers := applyLoads (managerByOffice ctx.allManagers office) st.loads
    let elig := FilterEligibleManagers managers t aiResult
    if elig.Eligible.isEmpty then
      let globalManagers := applyLoads ctx.allManagers st.loads
      let cross := EvaluateCrossOffice managers globalManagers t aiResult
      if cross.Assigned then
        match PickAssignee t.ID cross.Global.Eligible with
        | none => none
        | some (assignee, top2) =>
          let hashMod := HashStringToUint64 t.ID % top2.length
          let reasoning := buildCrossOfficeReasoning office usedGeo aiResult
            cross.Local cross.Global true top2 (some assignee) hashMod
          let assignedOffice := if assignee.Office = "" then office else assignee.Office
          let wres := writeAssignment ctx st t (some assignee) assignedOffice
            "ASSIGNED" cross.ReasonCode cross.ReasonText reasoning
          if wres.1 then
            some { wres.2 with
              assignedCount := st.assignedCount + 1,
              assignedCrossOfficeCount := st.assignedCrossOfficeCount + 1,
              loads := bumpLoad st.loads assignee.ID }
          else
            some (writeAssignmentError ctx wres.2 t "DB_ERROR"
              "Assignment write failed" (JVal.obj [("error", .s "tx failed")]))
      else
        let st := { st with unassignedCount := st.unassignedCount + 1,
                            unassignedGlobalCount := st.unassignedGlobalCount + 1 }
        let reasoning := buildCrossOfficeReasoning office usedGeo aiResult
          cross.Local cross.Global true [] none 0
        let st := (writeAssignment ctx st t none office "UNASSIGNED"
          cross.ReasonCode cross.ReasonText reasoning).2
        let unassignedReason :=
          if cross.Global.ReasonCode = "" then cross.ReasonCode
          else cross.Global.ReasonCode
        let st := { st with
          topUnassignedReasons := bumpReason st.topUnassignedReasons unassignedReason }
        if ctx.debug && st.samples.length < 5 then
          some { st with samples := st.samples ++
            [JVal.obj [("ticket_id", .s t.ID), ("reason_code", .s cross.ReasonCode),
                       ("reason_text", .s cross.ReasonText), ("reasoning", reasoning)]] }
        else some st
    else
      match PickAssignee t.ID elig.Eligible with
      | none => none
      | some (assignee, top2) =>
        let hashMod := HashStringToUint64 t.ID % top2.length
        let reasoning := buildCrossOfficeReasoning office usedGeo aiResult
          elig EligibilityResult.zero false top2 (some assignee) hashMod
        let wres := writeAssignment ctx st t (some assignee) office "ASSIGNED"
          "ASSIGNED_LOCAL" "Assigned in local office" reasoning
        if wres.1 then
          some { wres.2 with
            assignedCount := st.assignedCount + 1,
            assignedLocalCount := st.assignedLocalCount + 1,
            loads := bumpLoad st.loads assignee.ID }
        else
          some (writeAssignmentError ctx wres.2 t "DB_ERROR"
            "Assignment write failed" (JVal.obj [("error", .s "tx failed")]))

/-- Sequential ticket loop; a panic (`none`) aborts the run. -/
def processLoop (ctx : RunCtx) (st : RunState) : List Ticket → Option RunState
  | [] => some st
  | t :: rest =>
    match processOneTicket ctx st t with
    | none => none
    | some st' => processLoop ctx st' rest

/-- One timestamped pipeline event of the run summary. -/
structure RunEvent where
  payload : JVal
  time : Int
deriving Repr

/-- Run summary: timestamped events, counters and optional debug samples. -/
structure RunSummary where
  events : List RunEvent
  counts : List (String × JVal)
  samples : List JVal
deriving Repr

/-- Embedding of `service.avgLatency`. -/
def avgLatency (total : Int) (count : Nat) : Int :=
  if count = 0 then 0 else total / count

/-- Initial run state: the load snapshot is seeded once from the fetched
roster, everything else is zero. -/
def initialState (managers : List Manager) : RunState :=
  { loads := seedLoads managers, writes := [], nWrites := 0,
    enrichedCount := 0, latencyTotal := 0, geoCoverage := 0, fallbackCount := 0,
    assignedCount := 0, assignedLocalCount := 0, assignedCrossOfficeCount := 0,
    unassignedCount := 0, unassignedGlobalCount := 0, aiErrors := 0,
    topUnassignedReasons := [], samples := [] }

/-- Summary assembled at the end of a run (events mirror the Go code's five
`summary.Events` entries; their clock field is held next to the payload). -/
def buildSummary (ctx : RunCtx) (tickets : List Ticket) (st : RunState) :
    RunSummary :=
  { events :=
      [⟨JVal.obj [("type", .s "import_summary"),
          ("message", .s "Tickets ready for processing"),
          ("count", .i tickets.length)], ctx.now⟩,
       ⟨JVal.obj [("type", .s "ai_enrichment"),
          ("message", .s "AI enrichment complete"),
          ("count", .i st.enrichedCount),
          ("avg_latency_ms", .i (avgLatency st.latencyTotal st.enrichedCount)),
          ("errors", .i st.aiErrors)], ctx.now⟩,
       ⟨JVal.obj [("type", .s "office_selection"),
          ("geo_coverage", .i st.geoCoverage),
          ("fallback_count", .i st.fallbackCount)], ctx.now⟩,
       ⟨JVal.obj [("type", .s "assignment"),
          ("assigned", .i st.assignedCount),
          ("assigned_local", .i st.assignedLocalCount),
          ("assigned_cross_office", .i st.assignedCrossOfficeCount),
          ("unassigned", .i st.unassignedCount),
          ("unassigned_global", .i st.unassignedGlobalCount)], ctx.now⟩,
       ⟨JVal.obj [("type", .s "db_save"),
          ("message", .s "Processing saved")], ctx.now⟩],
    counts :=
      [("tickets_processed", .i tickets.length),
       ("assigned", .i st.assignedCount),
       ("assigned_local_count", .i st.assignedLocalCount),
       ("assigned_cross_office_count", .i st.assignedCrossOfficeCount),
       ("unassigned", .i st.unassignedCount),
       ("unassigned_global_count", .i st.unassignedGlobalCount),
       ("ai_errors", .i st.aiErrors),
       ("top_unassigned_reasons",
         .obj (st.topUnassignedReasons.map fun p => (p.1, JVal.i p.2)))],
    samples := st.samples }

/-- Embedding of `ProcessingService.ProcessTickets`: fetch tickets, offices
and managers (any fetch failure aborts the whole run), seed the in-run load
snapshot once, process each ticket sequentially, and return the final state
with the run summary. -/
def ProcessTickets (fetchTickets : Except String (List Ticket))
    (fetchUnits : Except String (List BusinessUnit))
    (fetchManagers : Except String (List Manager))
    (enrich : Ticket → Except String (AIAnalysis × Int))
    (dbOk : Nat → Bool) (dist : Rat → Rat → Rat → Rat → Rat)
    (now : Int) (debug : Bool) :
    Except String (RunState × RunSummary) := do
  let tickets ← fetchTickets
  let units ← fetchUnits
  let allManagers ← fetchManagers
  let ctx : RunCtx :=
    { dist := dist, units := units, allManagers := allManagers,
      enrich := enrich, dbOk := dbOk, now := now, debug := debug }
  match processLoop ctx (initialState allManagers) tickets with
  | none => .error "runtime panic"
  | some st => .ok (st, buildSummary ctx tickets st)

/-! ## Clock restamping (used to state clock-independence) -/

/-- Replace the timestamp of one recorded write. -/
def restampWrite (n : Int) (w : WriteAttempt) : WriteAttempt :=
  { w with row := { w.row with AssignedAt := n } }

/-- Replace the timestamps of all recorded writes. -/
def restampState (n : Int) (st : RunState) : RunState :=
  { st with writes := st.writes.map (restampWrite n) }

/-- Replace an event's timestamp. -/
def restampEvent (n : Int) (e : RunEvent) : RunEvent :=
  { e with time := n }

/-- Replace all timestamps of a run summary. -/
def restampSummary (n : Int) (s : RunSummary) : RunSummary :=
  { s with events := s.events.map (restampEvent n) }

/-- A recorded write that committed an `ASSIGNED` outcome (the only kind of
write after which the ticket loop bumps the in-run load snapshot). -/
def isCommittedAssignment (w : WriteAttempt) : Bool :=
  w.ok && (w.row.Status == "ASSIGNED")

/-! ## Stage access helpers -/

/-- Candidate list recorded for a named stage, if that stage was reached. -/
def stageCandidates (r : EligibilityResult) (name : String) :
    Option (List Manager) :=
  (r.Stages.find? (fun st => st.Name == name)).map (·.Candidates)

/-- Membership in a named stage's recorded candidate list. -/
def inStage (r : EligibilityResult) (name : String) (m : Manager) : Prop :=
  ∃ cs, stageCandidates r name = some cs ∧ m ∈ cs

/-! ## General lemmas -/

lemma goIsSpace_fold {c : Char} (h : goIsSpace c = true) : goToLowerChar c = c := by
  simp only [goIsSpace, Bool.or_eq_true, beq_iff_eq] at h
  rcases h with ((((((h | h) | h) | h) | h) | h) | h) | h <;> subst h <;> decide

lemma equalFold_shape_vip {s : String} (h : equalFold s "VIP" = true) :
    ∃ a b c, s.data = [a, b, c] ∧ goToLowerChar a = 'v' ∧
      goToLowerChar b = 'i' ∧ goToLowerChar c = 'p' := by
  have hdv : ("VIP" : String).data = ['V', 'I', 'P'] := rfl
  unfold equalFold at h
  rw [hdv] at h
  rcases hd : s.data with _ | ⟨a, _ | ⟨b, _ | ⟨c, _ | ⟨d, tl⟩⟩⟩⟩ <;>
    rw [hd] at h <;>
    simp only [equalFoldChars, Bool.and_eq_true, beq_iff_eq] at h
  · exact absurd h (by decide)
  · exact absurd h.2 (by decide)
  · exact absurd h.2.2 (by decide)
  · exact ⟨a, b, c, rfl,
      by rw [h.1]; decide, by rw [h.2.1]; decide, by rw [h.2.2.1]; decide⟩
  · exact absurd h.2.2.2 (by decide)

lemma equalFold_vip_trim {s : String} (h : equalFold s "VIP" = true) :
    equalFold (goTrimSpace s) "VIP" = true := by
  obtain ⟨a, b, c, hdata, ha, hb, hc⟩ := equalFold_shape_vip h
  have hna : goIsSpace a = false := by
    cases h2 : goIsSpace a
    · rfl
    · exfalso
      have hfold := goIsSpace_fold h2
      have hav : a = 'v' := by rw [← hfold]; exact ha
      rw [hav] at h2
      exact absurd h2 (by decide)
  have hnc : goIsSpace c = false := by
    cases h2 : goIsSpace c
    · rfl
    · exfalso
      have hfold := goIsSpace_fold h2
      have hcv : c = 'p' := by rw [← hfold]; exact hc
      rw [hcv] at h2
      exact absurd h2 (by decide)
  have htrim : goTrimSpace s = s := by
    cases s with
    | mk data =>
      simp only at hdata
      subst hdata
      simp [goTrimSpace, List.dropWhile, hna, hnc]
  rw [htrim]; exact h

lemma priority_needsVIP {p : Int} (h : p ≥ 9) : decide (p ≥ 9) = true := by
  exact decide_eq_true h

/-! PickAssignee characterization. -/

lemma pickAssignee_some (tid : String) (elig : List Manager) (h : elig ≠ []) :
    ∃ chosen cs, PickAssignee tid elig = some (chosen, cs) ∧
      cs = (if elig.length ≤ 2 then elig.insertionSort ManagerLE
            else (elig.insertionSort ManagerLE).take 2) ∧
      cs[HashStringToUint64 tid % cs.length]? = some chosen := by
  set sorted := elig.insertionSort ManagerLE with hsorted
  have hlen : sorted.length = elig.length := List.length_insertionSort _ _
  have hpos : 0 < elig.length := List.length_pos.mpr h
  by_cases h2 : sorted.length ≤ 2
  · have hidx : HashStringToUint64 tid % sorted.length < sorted.length :=
      Nat.mod_lt _ (hlen ▸ hpos)
    have hget : sorted[HashStringToUint64 tid % sorted.length]? =
        some sorted[HashStringToUint64 tid % sorted.length] :=
      List.getElem?_eq_getElem hidx
    refine ⟨sorted[HashStringToUint64 tid % sorted.length], sorted, ?_, ?_, hget⟩
    · unfold PickAssignee
      rw [← hsorted]
      simp only [h2, if_true, hget]
    · rw [if_pos (hlen ▸ h2)]
  · have h2' : 2 < sorted.length := Nat.lt_of_not_le h2
    set top2 := sorted.take 2 with htop2
    have hlen2 : top2.length = 2 := by
      rw [htop2, List.length_take]
      omega
    have hidx : HashStringToUint64 tid % 2 < top2.length := by
      rw [hlen2]; exact Nat.mod_lt _ (by norm_num)
    have hget : top2[HashStringToUint64 tid % 2]? =
        some top2[HashStringToUint64 tid % 2] :=
      List.getElem?_eq_getElem hidx
    refine ⟨top2[HashStringToUint64 tid % 2], top2, ?_, ?_, ?_⟩
    · unfold PickAssignee
      rw [← hsorted]
      simp only [if_neg h2, hget]
    · rw [if_neg (by omega : ¬ elig.length ≤ 2)]
    · rw [hlen2]; exact hget

lemma pickAssignee_isSome {tid : String} {elig : List Manager} (h : elig ≠ []) :
    (PickAssignee tid elig).isSome := by
  obtain ⟨chosen, cs, heq, -, -⟩ := pickAssignee_some tid elig h
  rw [heq]; rfl

lemma pickAssignee_none (tid : String) : PickAssignee tid [] = none := rfl

lemma pickAssignee_mem {tid : String} {elig : List Manager} {chosen : Manager}
    {cs : List Manager} (h : PickAssignee tid elig = some (chosen, cs)) :
    chosen ∈ elig ∧ ∀ m ∈ cs, m ∈ elig := by
  have hperm : ∀ m ∈ elig.insertionSort ManagerLE, m ∈ elig := fun m hm =>
    (List.perm_insertionSort ManagerLE elig).mem_iff.mp hm
  have hne : elig ≠ [] := by
    rintro rfl
    rw [pickAssignee_none] at h
    exact Option.noConfusion h
  obtain ⟨c', cs', heq, hcs, hget⟩ := pickAssignee_some tid elig hne
  rw [heq] at h
  injection h with h2
  obtain ⟨h3, h4⟩ := Prod.mk.inj h2
  subst h3; subst h4
  have hsub : ∀ m ∈ cs', m ∈ elig := by
    intro m hm
    rw [hcs] at hm
    split at hm
    · exact hperm m hm
    · exact hperm m (List.mem_of_mem_take hm)
  exact ⟨hsub c' (List.getElem?_mem hget), hsub⟩

lemma evaluateCrossOffice_assigned_global_ne_nil
    {loc glob : List Manager} {t : Ticket} {ai : AIAnalysis}
    (h : (EvaluateCrossOffice loc glob t ai).Assigned = true) :
    (EvaluateCrossOffice loc glob t ai).Global.Eligible ≠ [] := by
  unfold EvaluateCrossOffice at *
  by_cases hg : (FilterEligibleManagers glob t ai).Eligible.length > 0
  · simp only [if_pos hg]
    intro hnil
    rw [hnil] at hg
    simp at hg
  · rw [if_neg hg] at h
    simp at h

lemma pickAssignee_eq_none {tid : String} {elig : List Manager}
    (h : PickAssignee tid elig = none) : elig = [] := by
  by_contra hne
  have := @pickAssignee_isSome tid elig hne
  rw [h] at this
  exact Bool.noConfusion this

lemma processOneTicket_isSome (ctx : RunCtx) (st : RunState) (t : Ticket) :
    (processOneTicket ctx st t).isSome = true := by
  unfold processOneTicket
  cases he : ctx.enrich t with
  | error e => rfl
  | ok p =>
    obtain ⟨ai0, lat⟩ := p
    dsimp only
    split
    · -- local eligibility empty: cross-office path
      split
      · -- cross assigned
        rename_i hcross
        split
        · -- PickAssignee returned none: impossible, global eligible non-empty
          rename_i hpick
          exact absurd (pickAssignee_eq_none hpick)
            (evaluateCrossOffice_assigned_global_ne_nil hcross)
        · rename_i assignee top2 hpick
          (repeat' split) <;> rfl
      · -- unassigned path
        (repeat' split) <;> rfl
    · -- local eligibility non-empty
      rename_i hel
      split
      · rename_i hpick
        exfalso
        rw [pickAssignee_eq_none hpick] at hel
        exact hel rfl
      · rename_i assignee top2 hpick
        (repeat' split) <;> rfl

lemma processLoop_isSome (ctx : RunCtx) :
    ∀ (tickets : List Ticket) (st : RunState),
      (processLoop ctx st tickets).isSome = true := by
  intro tickets
  induction tickets with
  | nil => intro st; rfl
  | cons t rest ih =>
    intro st
    unfold processLoop
    cases hp : processOneTicket ctx st t with
    | none =>
      have := processOneTicket_isSome ctx st t
      rw [hp] at this
      exact Bool.noConfusion this
    | some st' => exact ih st'

/-- C2: `PickAssignee` sorts the eligible managers ascending by current
load with ties broken by ascending manager ID, considers the whole list
when it has at most two elements and the two least loaded otherwise, and
returns the considered manager at index `stableHash(ticket_id) mod
|consideredSet|`; in particular for loads `{m1 : 5, m2 : 1, m3 : 1}` the
considered set is `[m2, m3]` whatever the ticket ID.  (Repeatability is
definitional: the function is deterministic in its arguments.) -/
theorem c2_pick_assignee_load_hash (tid : String) (elig : List Manager) :
    (elig ≠ [] →
      ∃ chosen cs sorted,
        PickAssignee tid elig = some (chosen, cs) ∧
        List.Perm sorted elig ∧ List.Sorted ManagerLE sorted ∧
        cs = (if elig.length ≤ 2 then sorted else sorted.take 2) ∧
        cs[HashStringToUint64 tid % cs.length]? = some chosen) ∧
    (∀ tid' : String,
      (PickAssignee tid'
        [{ ID := "m1", CurrentLoad := 5 }, { ID := "m2", CurrentLoad := 1 },
         { ID := "m3", CurrentLoad := 1 }]).map
          (fun p => p.2.map (fun m => m.ID)) = some ["m2", "m3"]) := by
  constructor
  · intro h
    obtain ⟨chosen, cs, heq, hcs, hget⟩ := pickAssignee_some tid elig h
    exact ⟨chosen, cs, elig.insertionSort ManagerLE, heq,
      List.perm_insertionSort ManagerLE elig,
      List.sorted_insertionSort ManagerLE elig, hcs, hget⟩
  · intro tid'
    have hs : List.insertionSort ManagerLE
        [{ ID := "m1", CurrentLoad := 5 }, { ID := "m2", CurrentLoad := 1 },
         { ID := "m3", CurrentLoad := 1 }] =
        [{ ID := "m2", CurrentLoad := 1 }, { ID := "m3", CurrentLoad := 1 },
         { ID := "m1", CurrentLoad := 5 }] := by decide
    unfold PickAssignee
    rw [hs]
    rw [if_neg (by norm_num)]
    rcases Nat.mod_two_eq_zero_or_one (HashStringToUint64 tid') with h | h <;>
      simp [List.take, h]

/-- Witness for C2 at the test inputs of `TestPickAssigneeDeterministic`. -/
theorem c2_pick_assignee_load_hash_witness :
    ∃ chosen cs sorted,
      PickAssignee "ticket-1"
        [{ ID := "m1", CurrentLoad := 5 }, { ID := "m2", CurrentLoad := 1 },
         { ID := "m3", CurrentLoad := 1 }] = some (chosen, cs) ∧
      List.Perm sorted
        [{ ID := "m1", CurrentLoad := 5 }, { ID := "m2", CurrentLoad := 1 },
         { ID := "m3", CurrentLoad := 1 }] ∧
      List.Sorted ManagerLE sorted ∧
      cs = (if ([{ ID := "m1", CurrentLoad := 5 }, { ID := "m2", CurrentLoad := 1 },
         { ID := "m3", CurrentLoad := 1 }] : List Manager).length ≤ 2 then sorted
            else sorted.take 2) ∧
      cs[HashStringToUint64 "ticket-1" % cs.length]? = some chosen :=
  (c2_pick_assignee_load_hash "ticket-1"
    [{ ID := "m1", CurrentLoad := 5 }, { ID := "m2", CurrentLoad := 1 },
     { ID := "m3", CurrentLoad := 1 }]).1 (by decide)

/-- C10: `PickAssignee` is safe exactly on non-empty eligible lists: the
hash-mod index is in bounds and the chosen manager comes from the list,
while the empty list yields the panic marker (`none`); the orchestrator
never hits the panic: `processOneTicket` always returns a state. -/
theorem c10_pick_assignee_safety :
    (∀ (tid : String) (elig : List Manager), elig ≠ [] →
       ∃ chosen cs, PickAssignee tid elig = some (chosen, cs) ∧
         HashStringToUint64 tid % cs.length < cs.length ∧ chosen ∈ elig) ∧
    (∀ tid : String, PickAssignee tid [] = none) ∧
    (∀ (ctx : RunCtx) (st : RunState) (t : Ticket),
       (processOneTicket ctx st t).isSome = true) := by
  refine ⟨?_, fun tid => rfl, processOneTicket_isSome⟩
  intro tid elig h
  obtain ⟨chosen, cs, heq, hcs, hget⟩ := pickAssignee_some tid elig h
  refine ⟨chosen, cs, heq, ?_, (pickAssignee_mem heq).1⟩
  rcases Nat.eq_zero_or_pos cs.length with h0 | hpos
  · rw [List.length_eq_zero] at h0
    subst h0
    simp at hget
  · exact Nat.mod_lt _ hpos

/-! Stage-subset lemmas for the eligibility pipeline. -/

lemma afterVIPof_sub (managers : List Manager) (t : Ticket) (ai : AIAnalysis) :
    ∀ m ∈ afterVIPof managers t ai, m ∈ managers := by
  intro m hm
  unfold afterVIPof vipFilter at hm
  split at hm
  · exact List.mem_of_mem_filter hm
  · exact hm

lemma afterRoleOf_sub (managers : List Manager) (t : Ticket) (ai : AIAnalysis) :
    ∀ m ∈ afterRoleOf managers t ai, m ∈ afterVIPof managers t ai := by
  intro m hm
  unfold afterRoleOf roleFilter at hm
  split at hm
  · exact List.mem_of_mem_filter hm
  · exact hm

lemma afterLangOf_sub (managers : List Manager) (t : Ticket) (ai : AIAnalysis) :
    ∀ m ∈ afterLangOf managers t ai, m ∈ afterRoleOf managers t ai := by
  intro m hm
  unfold afterLangOf langFilter at hm
  split at hm
  · exact List.mem_of_mem_filter hm
  · exact hm

/-- C7: every stage of `FilterEligibleManagers` narrows the previous stage
(adjacent recorded candidate lists are related by inclusion), and a manager
in the `language_rule` stage output is also in the `vip_rule` and
`role_rule` stage outputs. -/
theorem c7_stage_monotonicity (managers : List Manager) (ticket : Ticket)
    (ai : AIAnalysis) (m : Manager) :
    List.Chain' (fun s1 s2 => ∀ x ∈ s2.Candidates, x ∈ s1.Candidates)
      (FilterEligibleManagers managers ticket ai).Stages ∧
    (inStage (FilterEligibleManagers managers ticket ai) "language_rule" m →
      inStage (FilterEligibleManagers managers ticket ai) "vip_rule" m ∧
      inStage (FilterEligibleManagers managers ticket ai) "role_rule" m) := by
  constructor
  · unfold FilterEligibleManagers
    split_ifs <;>
      simp only [List.chain'_cons, List.chain'_singleton, List.chain'_nil, and_true]
    · exact afterVIPof_sub managers ticket ai
    · exact ⟨afterVIPof_sub managers ticket ai, afterRoleOf_sub managers ticket ai⟩
    · exact ⟨afterVIPof_sub managers ticket ai, afterRoleOf_sub managers ticket ai,
        afterLangOf_sub managers ticket ai⟩
    · exact ⟨afterVIPof_sub managers ticket ai, afterRoleOf_sub managers ticket ai,
        afterLangOf_sub managers ticket ai⟩
  · intro hm
    unfold FilterEligibleManagers at hm ⊢
    split_ifs at hm ⊢
    · exact absurd hm (by simp [inStage, stageCandidates, List.find?])
    · exact absurd hm (by simp [inStage, stageCandidates, List.find?])
    · exact absurd hm (by simp [inStage, stageCandidates, List.find?])
    · have hmem : m ∈ afterLangOf managers ticket ai := by
        simpa [inStage, stageCandidates, List.find?] using hm
      constructor
      · exact ⟨afterVIPof managers ticket ai,
          by simp [stageCandidates, List.find?],
          afterRoleOf_sub managers ticket ai _
            (afterLangOf_sub managers ticket ai _ hmem)⟩
      · exact ⟨afterRoleOf managers ticket ai,
          by simp [stageCandidates, List.find?],
          afterLangOf_sub managers ticket ai _ hmem⟩
    · have hmem : m ∈ afterLangOf managers ticket ai := by
        simpa [inStage, stageCandidates, List.find?] using hm
      constructor
      · exact ⟨afterVIPof managers ticket ai,
          by simp [stageCandidates, List.find?],
          afterRoleOf_sub managers ticket ai _
            (afterLangOf_sub managers ticket ai _ hmem)⟩
      · exact ⟨afterRoleOf managers ticket ai,
          by simp [stageCandidates, List.find?],
          afterLangOf_sub managers ticket ai _ hmem⟩

lemma needsVIP_of_claim {ticket : Ticket} {ai : AIAnalysis}
    (h : equalFold ticket.Segment "VIP" = true ∨ ai.Priority ≥ 9) :
    needsVIPFor ticket ai = true := by
  unfold needsVIPFor
  rcases h with h | h
  · rw [equalFold_vip_trim h]
    rfl
  · rw [decide_eq_true h]
    simp

lemma needsRole_of_claim {ai : AIAnalysis} (h : ai.AType = "Change of data") :
    needsRoleFor ai = true := by
  unfold needsRoleFor
  rw [h]
  decide

lemma needsLang_of_claim {ai : AIAnalysis}
    (h : ai.Language = "KZ" ∨ ai.Language = "ENG" ∨ ai.Language = "RU") :
    needsLangFor ai = ai.Language ∧ langApplies (needsLangFor ai) = true := by
  unfold needsLangFor langApplies
  rcases h with h | h | h <;> rw [h] <;> exact ⟨by decide, by decide⟩

/-- C1: the eligibility pipeline applies the ordered stages after
`office_candidates`; on an empty roster it stops with
`NO_ELIGIBLE_MANAGERS`; when the ticket is VIP (case-insensitively) or the
priority is at least 9 the `vip_rule` stage keeps exactly the VIP-skilled
managers and an empty result stops with `VIP_REQUIRED_NO_MATCH`; when the
normalized type is `Change of data` the evaluated `role_rule` stage keeps
exactly the canonical senior-specialist managers, an empty result giving
`ROLE_MISMATCH`; when the normalized language is KZ/ENG/RU the evaluated
`language_rule` stage keeps exactly the managers with that language skill,
an empty result giving `LANGUAGE_MISMATCH`; with no stop, the eligible set
is the `language_rule` stage output. -/
theorem c1_filter_stage_pipeline (managers : List Manager) (ticket : Ticket)
    (ai : AIAnalysis) (r : EligibilityResult)
    (hr : r = FilterEligibleManagers managers ticket ai) :
    (managers = [] → r.ReasonCode = "NO_ELIGIBLE_MANAGERS" ∧ r.Eligible = []) ∧
    (r.Stages.map (·.Name) = ["office_candidates"] ∨
     r.Stages.map (·.Name) = ["office_candidates", "vip_rule"] ∨
     r.Stages.map (·.Name) = ["office_candidates", "vip_rule", "role_rule"] ∨
     r.Stages.map (·.Name) =
       ["office_candidates", "vip_rule", "role_rule", "language_rule"]) ∧
    ((equalFold ticket.Segment "VIP" = true ∨ ai.Priority ≥ 9) → managers ≠ [] →
      stageCandidates r "vip_rule" = some (vipFilter managers) ∧
      (vipFilter managers = [] →
        r.ReasonCode = "VIP_REQUIRED_NO_MATCH" ∧ r.Eligible = [] ∧
        r.Stages.map (·.Name) = ["office_candidates", "vip_rule"])) ∧
    (ai.AType = "Change of data" →
      ∀ cs, stageCandidates r "role_rule" = some cs →
        cs = roleFilter (afterVIPof managers ticket ai) ∧
        (cs = [] → r.ReasonCode = "ROLE_MISMATCH" ∧ r.Eligible = [])) ∧
    ((ai.Language = "KZ" ∨ ai.Language = "ENG" ∨ ai.Language = "RU") →
      ∀ cs, stageCandidates r "language_rule" = some cs →
        cs = langFilter (afterRoleOf managers ticket ai) ai.Language ∧
        (cs = [] → r.ReasonCode = "LANGUAGE_MISMATCH" ∧ r.Eligible = [])) ∧
    (r.ReasonCode = "" → stageCandidates r "language_rule" = some r.Eligible) := by
  subst hr
  unfold FilterEligibleManagers
  split_ifs with h1 h2 h3 h4
  · -- empty roster
    refine ⟨fun _ => ⟨rfl, rfl⟩, Or.inl (by simp), ?_, ?_, ?_, ?_⟩
    · intro _ hne
      exact absurd (List.isEmpty_iff.mp h1) hne
    · intro _ cs hcs
      simp [stageCandidates, List.find?] at hcs
    · intro _ cs hcs
      simp [stageCandidates, List.find?] at hcs
    · intro hrc
      simp at hrc
  · -- VIP stop
    refine ⟨?_, Or.inr (Or.inl (by simp)), ?_, ?_, ?_, ?_⟩
    · intro h
      exfalso
      apply h1
      rw [h]
      rfl
    · intro hvip _
      have hv := needsVIP_of_claim hvip
      constructor
      · simp [stageCandidates, List.find?, afterVIPof, hv]
      · intro _
        exact ⟨rfl, rfl, by simp⟩
    · intro _ cs hcs
      simp [stageCandidates, List.find?] at hcs
    · intro _ cs hcs
      simp [stageCandidates, List.find?] at hcs
    · intro hrc
      simp at hrc
  · -- role stop
    refine ⟨?_, Or.inr (Or.inr (Or.inl (by simp))), ?_, ?_, ?_, ?_⟩
    · intro h
      exfalso
      apply h1
      rw [h]
      rfl
    · intro hvip _
      have hv := needsVIP_of_claim hvip
      constructor
      · simp [stageCandidates, List.find?, afterVIPof, hv]
      · intro hemp
        exfalso
        apply h2
        simp [afterVIPof, hv, hemp]
    · intro hrole cs hcs
      have hro := needsRole_of_claim hrole
      simp only [stageCandidates, List.find?] at hcs
      simp at hcs
      subst hcs
      refine ⟨?_, fun _ => ⟨rfl, rfl⟩⟩
      simp [afterRoleOf, hro]
    · intro _ cs hcs
      simp [stageCandidates, List.find?] at hcs
    · intro hrc
      simp at hrc
  · -- language stop
    refine ⟨?_, Or.inr (Or.inr (Or.inr (by simp))), ?_, ?_, ?_, ?_⟩
    · intro h
      exfalso
      apply h1
      rw [h]
      rfl
    · intro hvip _
      have hv := needsVIP_of_claim hvip
      constructor
      · simp [stageCandidates, List.find?, afterVIPof, hv]
      · intro hemp
        exfalso
        apply h2
        simp [afterVIPof, hv, hemp]
    · intro hrole cs hcs
      have hro := needsRole_of_claim hrole
      simp only [stageCandidates, List.find?] at hcs
      simp at hcs
      subst hcs
      refine ⟨?_, ?_⟩
      · simp [afterRoleOf, hro]
      · intro hemp
        exfalso
        apply h3
        simp [hro, hemp]
    · intro hlang cs hcs
      obtain ⟨hnl, hla⟩ := needsLang_of_claim hlang
      rw [hnl] at hla
      simp only [stageCandidates, List.find?] at hcs
      simp at hcs
      subst hcs
      refine ⟨?_, fun _ => ⟨rfl, rfl⟩⟩
      simp [afterLangOf, hla, hnl]
    · intro hrc
      simp at hrc
  · -- success
    refine ⟨?_, Or.inr (Or.inr (Or.inr (by simp))), ?_, ?_, ?_, ?_⟩
    · intro h
      exfalso
      apply h1
      rw [h]
      rfl
    · intro hvip _
      have hv := needsVIP_of_claim hvip
      constructor
      · simp [stageCandidates, List.find?, afterVIPof, hv]
      · intro hemp
        exfalso
        apply h2
        simp [afterVIPof, hv, hemp]
    · intro hrole cs hcs
      have hro := needsRole_of_claim hrole
      simp only [stageCandidates, List.find?] at hcs
      simp at hcs
      subst hcs
      refine ⟨?_, ?_⟩
      · simp [afterRoleOf, hro]
      · intro hemp
        exfalso
        apply h3
        simp [hro, hemp]
    · intro hlang cs hcs
      obtain ⟨hnl, hla⟩ := needsLang_of_claim hlang
      rw [hnl] at hla
      simp only [stageCandidates, List.find?] at hcs
      simp at hcs
      subst hcs
      refine ⟨?_, ?_⟩
      · simp [afterLangOf, hla, hnl]
      · intro hemp
        exfalso
        apply h4
        simp [hnl, hla, hemp]
    · intro _
      simp [stageCandidates, List.find?]

/-- Witness for C1 at the inputs of `TestFilterEligibleManagers` (VIP
segment, priority 9, type `Change of data`, language RU). -/
theorem c1_filter_stage_pipeline_witness :
    stageCandidates
      (FilterEligibleManagers
        [{ ID := "m1", Role := "Глав спец", Skills := ["VIP", "RU"] },
         { ID := "m2", Role := "Оператор", Skills := ["RU"] },
         { ID := "m3", Role := "Глав спец", Skills := ["ENG"] }]
        { ID := "t1", Segment := "VIP" }
        { AType := "Change of data", Priority := 9, Language := "RU" })
      "vip_rule" =
    some (vipFilter
      [{ ID := "m1", Role := "Глав спец", Skills := ["VIP", "RU"] },
       { ID := "m2", Role := "Оператор", Skills := ["RU"] },
       { ID := "m3", Role := "Глав спец", Skills := ["ENG"] }]) :=
  ((c1_filter_stage_pipeline
    [{ ID := "m1", Role := "Глав спец", Skills := ["VIP", "RU"] },
     { ID := "m2", Role := "Оператор", Skills := ["RU"] },
     { ID := "m3", Role := "Глав спец", Skills := ["ENG"] }]
    { ID := "t1", Segment := "VIP" }
    { AType := "Change of data", Priority := 9, Language := "RU" }
    _ rfl).2.2.1 (Or.inl (by decide)) (by decide)).1

/-! Characterization of the minimum-distance scan. -/

lemma bestGeoAux_spec (dist : Rat → Rat → Rat → Rat → Rat) (lat lon : Rat) :
    ∀ (l : List BusinessUnit) (acc : Option (BusinessUnit × Rat)),
      (bestGeoAux dist lat lon acc l = none →
        acc = none ∧ ∀ v ∈ l, hasCoords v = false) ∧
      (∀ u d, bestGeoAux dist lat lon acc l = some (u, d) →
        ((acc = some (u, d) ∧
            ∀ v ∈ l, hasCoords v = true → d ≤ unitDist dist lat lon v) ∨
         (∃ pre post, l = pre ++ u :: post ∧ hasCoords u = true ∧
            d = unitDist dist lat lon u ∧
            (∀ bu bd, acc = some (bu, bd) → d < bd) ∧
            (∀ v ∈ pre, hasCoords v = true → d < unitDist dist lat lon v) ∧
            (∀ v ∈ post, hasCoords v = true → d ≤ unitDist dist lat lon v)))) := by
  intro l
  induction l with
  | nil =>
    intro acc
    constructor
    · intro h
      exact ⟨h, by simp⟩
    · intro u d h
      exact Or.inl ⟨h, by simp⟩
  | cons w rest ih =>
    intro acc
    by_cases hw : hasCoords w = true
    · cases acc with
      | none =>
        have hstep : bestGeoAux dist lat lon none (w :: rest) =
            bestGeoAux dist lat lon (some (w, unitDist dist lat lon w)) rest := by
          simp [bestGeoAux, hw]
        constructor
        · intro h
          rw [hstep] at h
          have := ((ih _).1 h).1
          exact absurd this (by simp)
        · intro u d h
          rw [hstep] at h
          rcases (ih _).2 u d h with ⟨hacc, hmin⟩ |
            ⟨pre, post, hsplit, hcu, hd, haccd, hpre, hpost⟩
          · injection hacc with h'
            obtain ⟨h1', h2'⟩ := Prod.mk.inj h'
            subst h1'
            subst h2'
            exact Or.inr ⟨[], rest, rfl, hw, rfl, by simp, by simp, hmin⟩
          · refine Or.inr ⟨w :: pre, post, by rw [hsplit]; simp, hcu, hd, by simp, ?_, hpost⟩
            intro v hv hcv
            rcases List.mem_cons.mp hv with rfl | hv'
            · exact haccd _ _ rfl
            · exact hpre v hv' hcv
      | some bb =>
        obtain ⟨bu, bd⟩ := bb
        by_cases hlt : unitDist dist lat lon w < bd
        · have hstep : bestGeoAux dist lat lon (some (bu, bd)) (w :: rest) =
              bestGeoAux dist lat lon (some (w, unitDist dist lat lon w)) rest := by
            simp [bestGeoAux, hw, hlt]
          constructor
          · intro h
            rw [hstep] at h
            have := ((ih _).1 h).1
            exact absurd this (by simp)
          · intro u d h
            rw [hstep] at h
            rcases (ih _).2 u d h with ⟨hacc, hmin⟩ |
              ⟨pre, post, hsplit, hcu, hd, haccd, hpre, hpost⟩
            · injection hacc with h'
              obtain ⟨h1', h2'⟩ := Prod.mk.inj h'
              subst h1'
              subst h2'
              refine Or.inr ⟨[], rest, rfl, hw, rfl, ?_, by simp, hmin⟩
              intro bu' bd' hbb
              injection hbb with h''
              obtain ⟨-, hbd⟩ := Prod.mk.inj h''
              subst hbd
              exact hlt
            · have hdw : d < unitDist dist lat lon w := haccd _ _ rfl
              refine Or.inr ⟨w :: pre, post, by rw [hsplit]; simp, hcu, hd, ?_, ?_, hpost⟩
              · intro bu' bd' hbb
                injection hbb with h''
                obtain ⟨-, hbd⟩ := Prod.mk.inj h''
                subst hbd
                exact hdw.trans hlt
              · intro v hv hcv
                rcases List.mem_cons.mp hv with rfl | hv'
                · exact hdw
                · exact hpre v hv' hcv
        · have hstep : bestGeoAux dist lat lon (some (bu, bd)) (w :: rest) =
              bestGeoAux dist lat lon (some (bu, bd)) rest := by
            simp [bestGeoAux, hw, hlt]
          constructor
          · intro h
            rw [hstep] at h
            have := ((ih _).1 h).1
            exact absurd this (by simp)
          · intro u d h
            rw [hstep] at h
            rcases (ih _).2 u d h with ⟨hacc, hmin⟩ |
              ⟨pre, post, hsplit, hcu, hd, haccd, hpre, hpost⟩
            · refine Or.inl ⟨hacc, ?_⟩
              intro v hv hcv
              rcases List.mem_cons.mp hv with rfl | hv'
              · injection hacc with h''
                obtain ⟨-, hbd⟩ := Prod.mk.inj h''
                subst hbd
                exact not_lt.mp hlt
              · exact hmin v hv' hcv
            · have hdbd : d < bd := haccd _ _ rfl
              refine Or.inr ⟨w :: pre, post, by rw [hsplit]; simp, hcu, hd, haccd, ?_, hpost⟩
              intro v hv hcv
              rcases List.mem_cons.mp hv with rfl | hv'
              · exact hdbd.trans_le (not_lt.mp hlt)
              · exact hpre v hv' hcv
    · have hstep : bestGeoAux dist lat lon acc (w :: rest) =
          bestGeoAux dist lat lon acc rest := by
        simp [bestGeoAux, hw]
      constructor
      · intro h
        rw [hstep] at h
        obtain ⟨hacc, hall⟩ := (ih acc).1 h
        refine ⟨hacc, ?_⟩
        intro v hv
        rcases List.mem_cons.mp hv with rfl | hv'
        · exact Bool.eq_false_iff.mpr hw
        · exact hall v hv'
      · intro u d h
        rw [hstep] at h
        rcases (ih acc).2 u d h with ⟨hacc, hmin⟩ |
          ⟨pre, post, hsplit, hcu, hd, haccd, hpre, hpost⟩
        · refine Or.inl ⟨hacc, ?_⟩
          intro v hv hcv
          rcases List.mem_cons.mp hv with rfl | hv'
          · exact absurd hcv hw
          · exact hmin v hv' hcv
        · refine Or.inr ⟨w :: pre, post, by rw [hsplit]; simp, hcu, hd, haccd, ?_, hpost⟩
          intro v hv hcv
          rcases List.mem_cons.mp hv with rfl | hv'
          · exact absurd hcv hw
          · exact hpre v hv' hcv

/-- C3: `SelectOffice` takes the geo path exactly when the enrichment
confidence is at least 0.70 and some office has both coordinates; on the
geo path it returns the normalized name of an office whose distance is
minimal among all offices with coordinates, strictly smaller than every
earlier such office (first seen wins exact ties); otherwise the final
office is the `stableHash(ticket_id) mod 2` canonical fallback.  The result
is a pure function of its arguments, so repeated calls agree. -/
theorem c3_select_office_geo_or_fallback (dist : Rat → Rat → Rat → Rat → Rat)
    (tid : String) (ai : AIAnalysis) (units : List BusinessUnit) :
    ((SelectOffice dist tid ai units).2 = true ↔
      (7/10 ≤ ai.Confidence ∧ ∃ u ∈ units, hasCoords u = true)) ∧
    ((SelectOffice dist tid ai units).2 = true →
      ∃ pre post u, units = pre ++ u :: post ∧ hasCoords u = true ∧
        (SelectOffice dist tid ai units).1 = normalizeOfficeEnum u.Name ∧
        (∀ v ∈ units, hasCoords v = true →
          unitDist dist ai.Lat ai.Lon u ≤ unitDist dist ai.Lat ai.Lon v) ∧
        (∀ v ∈ pre, hasCoords v = true →
          unitDist dist ai.Lat ai.Lon u < unitDist dist ai.Lat ai.Lon v)) ∧
    ((SelectOffice dist tid ai units).2 = false →
      (SelectOffice dist tid ai units).1 =
        (if HashStringToUint64 tid % 2 = 0 then "ASTANA" else "ALMATY")) := by
  unfold SelectOffice
  have hsnd : (if HashStringToUint64 tid % 2 = 0 then (("ASTANA" : String), false)
      else ("ALMATY", false)).2 = false := by split <;> rfl
  by_cases hc : (decide (ai.Confidence ≥ confidenceThreshold) && decide (0 < units.length)) = true
  · rw [if_pos hc]
    obtain ⟨hconf, hlen⟩ := Bool.and_eq_true_iff.mp hc
    have hconf' : 7/10 ≤ ai.Confidence := confidenceThreshold_eq ▸ of_decide_eq_true hconf
    cases hbest : bestGeoAux dist ai.Lat ai.Lon none units with
    | none =>
      obtain ⟨-, hall⟩ := (bestGeoAux_spec dist ai.Lat ai.Lon units none).1 hbest
      dsimp only
      refine ⟨?_, ?_, ?_⟩
      · rw [hsnd]
        simp only [Bool.false_eq_true, false_iff]
        rintro ⟨-, u, hu, hcu⟩
        rw [hall u hu] at hcu
        exact Bool.noConfusion hcu
      · intro h
        rw [hsnd] at h
        exact Bool.noConfusion h
      · rintro -
        split <;> rename_i hsp <;> simp [hsp]
    | some p =>
      obtain ⟨u, d⟩ := p
      rcases (bestGeoAux_spec dist ai.Lat ai.Lon units none).2 u d hbest with
        ⟨hacc, -⟩ | ⟨pre, post, hsplit, hcu, hd, -, hpre, hpost⟩
      · exact absurd hacc (by simp)
      · dsimp only
        refine ⟨?_, ?_, ?_⟩
        · exact ⟨fun _ => ⟨hconf', u, by rw [hsplit]; simp, hcu⟩, fun _ => rfl⟩
        · rintro -
          refine ⟨pre, post, u, hsplit, hcu, rfl, ?_, ?_⟩
          · intro v hv hcv
            rw [hsplit] at hv
            rcases List.mem_append.mp hv with hv' | hv'
            · rw [← hd]
              exact le_of_lt (hpre v hv' hcv)
            · rcases List.mem_cons.mp hv' with rfl | hv''
              · rw [← hd]
              · rw [← hd]
                exact hpost v hv'' hcv
          · intro v hv hcv
            rw [← hd]
            exact hpre v hv hcv
        · intro h
          exact Bool.noConfusion h
  · rw [if_neg hc]
    refine ⟨?_, ?_, ?_⟩
    · rw [hsnd]
      simp only [Bool.false_eq_true, false_iff]
      rintro ⟨hconf, u, hu, -⟩
      apply hc
      rw [Bool.and_eq_true_iff]
      exact ⟨decide_eq_true (confidenceThreshold_eq ▸ hconf),
        decide_eq_true (List.length_pos.mpr (List.ne_nil_of_mem hu))⟩
    · intro h
      rw [hsnd] at h
      exact Bool.noConfusion h
    · rintro -
      split <;> rename_i hsp <;> simp [hsp]

/-- Witness for C3 at the determinism example of §8 of the specification
(confidence 0.9, offices Astana and Almaty with coordinates), for a
concrete distance function. -/
theorem c3_select_office_geo_or_fallback_witness :
    (SelectOffice (fun a b c d => (a - c) * (a - c) + (b - d) * (b - d)) "T1"
      { Confidence := 9/10, Lat := 5118/100, Lon := 7145/100 }
      [{ Name := "Astana", Lat := some (511605/10000), Lon := some (714704/10000) },
       { Name := "Almaty", Lat := some (432220/10000), Lon := some (768512/10000) }]).2
      = true :=
  (c3_select_office_geo_or_fallback
    (fun a b c d => (a - c) * (a - c) + (b - d) * (b - d)) "T1"
    { Confidence := 9/10, Lat := 5118/100, Lon := 7145/100 }
    [{ Name := "Astana", Lat := some (511605/10000), Lon := some (714704/10000) },
     { Name := "Almaty", Lat := some (432220/10000), Lon := some (768512/10000) }]).1.mpr
    ⟨by norm_num,
     { Name := "Astana", Lat := some (511605/10000), Lon := some (714704/10000) },
     by simp, by decide⟩

/-- Witness for C10 at a singleton eligible list. -/
theorem c10_pick_assignee_safety_witness :
    ∃ chosen cs, PickAssignee "t1" [{ ID := "m1", CurrentLoad := 0 }] =
        some (chosen, cs) ∧
      HashStringToUint64 "t1" % cs.length < cs.length ∧
      chosen ∈ [({ ID := "m1", CurrentLoad := 0 } : Manager)] :=
  c10_pick_assignee_safety.1 "t1" [{ ID := "m1", CurrentLoad := 0 }] (by decide)

/-! Projection lemmas for the orchestrator state transformers. -/

lemma bumpGeoCounters_loads (st : RunState) (b : Bool) :
    (bumpGeoCounters st b).loads = st.loads := by
  unfold bumpGeoCounters; split <;> rfl

lemma bumpGeoCounters_writes (st : RunState) (b : Bool) :
    (bumpGeoCounters st b).writes = st.writes := by
  unfold bumpGeoCounters; split <;> rfl

lemma bumpGeoCounters_nWrites (st : RunState) (b : Bool) :
    (bumpGeoCounters st b).nWrites = st.nWrites := by
  unfold bumpGeoCounters; split <;> rfl

lemma bumpGeoCounters_samples (st : RunState) (b : Bool) :
    (bumpGeoCounters st b).samples = st.samples := by
  unfold bumpGeoCounters; split <;> rfl

lemma bumpGeoCounters_aiErrors (st : RunState) (b : Bool) :
    (bumpGeoCounters st b).aiErrors = st.aiErrors := by
  unfold bumpGeoCounters; split <;> rfl

lemma bumpGeoCounters_assignedCount (st : RunState) (b : Bool) :
    (bumpGeoCounters st b).assignedCount = st.assignedCount := by
  unfold bumpGeoCounters; split <;> rfl

lemma bumpGeoCounters_topUnassignedReasons (st : RunState) (b : Bool) :
    (bumpGeoCounters st b).topUnassignedReasons = st.topUnassignedReasons := by
  unfold bumpGeoCounters; split <;> rfl

lemma evaluateCrossOffice_reasonCode_of_assigned
    {loc glob : List Manager} {t : Ticket} {ai : AIAnalysis}
    (h : (EvaluateCrossOffice loc glob t ai).Assigned = true) :
    (EvaluateCrossOffice loc glob t ai).ReasonCode = "ASSIGNED_CROSS_OFFICE" := by
  unfold EvaluateCrossOffice at *
  split at h
  · split
    · rfl
    · simp_all
  · exact absurd h (by simp)

lemma evaluateCrossOffice_reasonCode_of_unassigned
    {loc glob : List Manager} {t : Ticket} {ai : AIAnalysis}
    (h : (EvaluateCrossOffice loc glob t ai).Assigned = false) :
    (EvaluateCrossOffice loc glob t ai).ReasonCode =
      "NO_ELIGIBLE_MANAGERS_GLOBAL" := by
  unfold EvaluateCrossOffice at *
  split at h
  · exact absurd h (by simp)
  · split
    · simp_all
    · rfl

/-- C4 (amended): when the local pass is empty and the cross-office pass
assigns, the recorded outcome is `ASSIGNED` / `ASSIGNED_CROSS_OFFICE` with
the chosen assignee, and the office written is the assignee's own office
when that is non-empty, otherwise the previously selected office. -/
theorem c4_cross_office_assignment_office_override
    (ctx : RunCtx) (st : RunState) (t : Ticket) (ai0 : AIAnalysis) (lat : Int)
    (office : String) (usedGeo : Bool) (cross : CrossOfficeResult)
    (assignee : Manager) (top2 : List Manager)
    (henr : ctx.enrich t = Except.ok (ai0, lat))
    (hsel : SelectOffice ctx.dist t.ID (normalizeAI ai0) ctx.units = (office, usedGeo))
    (helig : (FilterEligibleManagers
        (applyLoads (managerByOffice ctx.allManagers office) st.loads) t
        (normalizeAI ai0)).Eligible.isEmpty = true)
    (hcross : cross = EvaluateCrossOffice
        (applyLoads (managerByOffice ctx.allManagers office) st.loads)
        (applyLoads ctx.allManagers st.loads) t (normalizeAI ai0))
    (hassigned : cross.Assigned = true)
    (hpick : PickAssignee t.ID cross.Global.Eligible = some (assignee, top2))
    (hdb : ctx.dbOk st.nWrites = true) :
    ∃ st' w, processOneTicket ctx st t = some st' ∧
      st'.writes = st.writes ++ [w] ∧ w.ok = true ∧
      w.row.Status = "ASSIGNED" ∧
      w.row.ReasonCode = "ASSIGNED_CROSS_OFFICE" ∧
      w.row.ManagerID = some assignee.ID ∧
      w.row.Office = (if assignee.Office = "" then office else assignee.Office) := by
  have hrc : cross.ReasonCode = "ASSIGNED_CROSS_OFFICE" := by
    rw [hcross]
    exact evaluateCrossOffice_reasonCode_of_assigned (hcross ▸ hassigned)
  unfold processOneTicket
  rw [henr]
  dsimp only
  rw [hsel]
  dsimp only
  rw [bumpGeoCounters_loads]
  rw [if_pos helig, ← hcross, if_pos hassigned, hpick]
  dsimp only [writeAssignment]
  rw [bumpGeoCounters_nWrites]
  dsimp only
  rw [hdb]
  rw [if_pos rfl]
  refine ⟨_,
    ⟨outcomeRow ctx t (some assignee)
        (if assignee.Office = "" then office else assignee.Office) "ASSIGNED"
        cross.ReasonCode cross.ReasonText
        (buildCrossOfficeReasoning office usedGeo (normalizeAI ai0) cross.Local
          cross.Global true top2 (some assignee)
          (HashStringToUint64 t.ID % top2.length)),
      true⟩,
    rfl, ?_, rfl, rfl, ?_, rfl, rfl⟩
  · dsimp only
    rw [bumpGeoCounters_writes]
  · exact hrc

/-- Counterexample to C4 as stated: a cross-office assignee whose own
office is empty; the outcome row keeps the previously selected office
(`ASTANA`), not the assignee's (empty) office. -/
theorem c4_cross_office_counterexample :
    (processOneTicket
      { dist := fun _ _ _ _ => 0, units := [],
        allManagers := [{ ID := "m1" }],
        enrich := fun _ => Except.ok ({}, 0),
        dbOk := fun _ => true, now := 0, debug := false }
      (initialState [{ ID := "m1" }])
      { ID := "t1" }).map
        (fun s => s.writes.map fun w =>
          (w.row.Office, w.row.ManagerID, w.row.Status, w.row.ReasonCode)) =
      some [("ASTANA", some "m1", "ASSIGNED", "ASSIGNED_CROSS_OFFICE")] ∧
    ({ ID := "m1" } : Manager).Office ≠ "ASTANA" :=
  ⟨by decide, by decide⟩

/-- Witness for C4 (amended) at the scenario of
`TestEvaluateCrossOffice_AssignsWhenGlobalHasVIP` (a VIP ticket, no local
VIP skill, a VIP manager in the other office). -/
theorem c4_cross_office_assignment_office_override_witness :
    ∃ st' w, processOneTicket
      { dist := fun _ _ _ _ => 0, units := [], allManagers := [{ ID := "m1", Office := "ASTANA", Role := "Специалист", Skills := ["RU"] }, { ID := "m2", Office := "ALMATY", Role := "Специалист", Skills := ["VIP", "RU"] }], enrich := fun _ => Except.ok ({ AType := "Consultation", Priority := 1, Language := "RU" }, 0), dbOk := fun _ => true, now := 0, debug := false }
      (initialState [{ ID := "m1", Office := "ASTANA", Role := "Специалист", Skills := ["RU"] }, { ID := "m2", Office := "ALMATY", Role := "Специалист", Skills := ["VIP", "RU"] }])
      { ID := "t1", Segment := "VIP" } = some st' ∧
      st'.writes = (initialState [{ ID := "m1", Office := "ASTANA", Role := "Специалист", Skills := ["RU"] }, { ID := "m2", Office := "ALMATY", Role := "Специалист", Skills := ["VIP", "RU"] }]).writes ++ [w] ∧
      w.ok = true ∧ w.row.Status = "ASSIGNED" ∧
      w.row.ReasonCode = "ASSIGNED_CROSS_OFFICE" ∧
      w.row.ManagerID = some ({ ID := "m2", Office := "ALMATY", Role := "Специалист", Skills := ["VIP", "RU"], CurrentLoad := 0 } : Manager).ID ∧
      w.row.Office = (if ({ ID := "m2", Office := "ALMATY", Role := "Специалист", Skills := ["VIP", "RU"], CurrentLoad := 0 } : Manager).Office = "" then "ASTANA" else ({ ID := "m2", Office := "ALMATY", Role := "Специалист", Skills := ["VIP", "RU"], CurrentLoad := 0 } : Manager).Office) :=
  c4_cross_office_assignment_office_override
    { dist := fun _ _ _ _ => 0, units := [], allManagers := [{ ID := "m1", Office := "ASTANA", Role := "Специалист", Skills := ["RU"] }, { ID := "m2", Office := "ALMATY", Role := "Специалист", Skills := ["VIP", "RU"] }], enrich := fun _ => Except.ok ({ AType := "Consultation", Priority := 1, Language := "RU" }, 0), dbOk := fun _ => true, now := 0, debug := false }
    (initialState [{ ID := "m1", Office := "ASTANA", Role := "Специалист", Skills := ["RU"] }, { ID := "m2", Office := "ALMATY", Role := "Специалист", Skills := ["VIP", "RU"] }])
    { ID := "t1", Segment := "VIP" }
    { AType := "Consultation", Priority := 1, Language := "RU" }
    0 "ASTANA" false _
    { ID := "m2", Office := "ALMATY", Role := "Специалист", Skills := ["VIP", "RU"], CurrentLoad := 0 }
    [{ ID := "m2", Office := "ALMATY", Role := "Специалист", Skills := ["VIP", "RU"], CurrentLoad := 0 }]
    rfl (by decide) (by decide) rfl (by decide) (by decide) rfl

lemma evaluateCrossOffice_global_nil_of_unassigned
    {loc glob : List Manager} {t : Ticket} {ai : AIAnalysis}
    (h : (EvaluateCrossOffice loc glob t ai).Assigned = false) :
    (EvaluateCrossOffice loc glob t ai).Global.Eligible = [] := by
  unfold EvaluateCrossOffice at *
  split at h
  · exact absurd h (by simp)
  · rename_i hg
    rw [if_neg hg]
    have h0 : (FilterEligibleManagers glob t ai).Eligible.length = 0 := by omega
    exact List.length_eq_zero.mp h0

lemma buildAttempt_failed_reason (scope office : String)
    (elig : EligibilityResult) {fr : String} (hfr : fr ≠ "") (fb : Bool) :
    (buildAttempt scope office elig fr fb).getField "failed_reason_code" =
      some (JVal.s fr) := by
  unfold buildAttempt JVal.getField
  split_ifs <;> simp [List.find?, hfr]

lemma buildCrossOfficeReasoning_global_failed_reason
    (office : String) (usedGeo : Bool) (ai : AIAnalysis)
    (loc glob : EligibilityResult) (top2 : List Manager)
    (picked : Option Manager) (hashMod : Nat)
    (hnil : glob.Eligible = []) (hrc : glob.ReasonCode ≠ "") :
    (((buildCrossOfficeReasoning office usedGeo ai loc glob true top2 picked
        hashMod).getField "attempts").bind (fun a => JVal.getIdx a 1)).bind
      (fun a => a.getField "failed_reason_code") =
      some (JVal.s glob.ReasonCode) := by
  have hglob : (if glob.Eligible.isEmpty then
      (if glob.ReasonCode == "" then "NO_ELIGIBLE_MANAGERS" else glob.ReasonCode)
      else "") = glob.ReasonCode := by
    rw [hnil]
    simp [hrc]
  unfold buildCrossOfficeReasoning
  rw [hglob]
  rw [show (JVal.obj [("office_selected", JVal.s office),
      ("office_rule", JVal.s (if usedGeo then "nearest_by_geo" else "fallback_50_50")),
      ("attempts", JVal.arr ([buildAttempt "LOCAL" office loc
        (if loc.Eligible.isEmpty then
          (if loc.ReasonCode == "" then "NO_ELIGIBLE_MANAGERS" else loc.ReasonCode)
         else "") false] ++ (if true then [buildAttempt "GLOBAL" "" glob glob.ReasonCode true] else []))),
      ("top2", if top2.isEmpty then JVal.null
        else JVal.arr (top2.map fun m =>
          JVal.obj [("manager_id", JVal.s m.ID), ("load", JVal.i m.CurrentLoad)])),
      ("picked", match picked with
        | some p => JVal.obj [("manager_id", JVal.s p.ID),
            ("method", JVal.s "deterministic_round_robin"), ("hash_mod", JVal.i hashMod)]
        | none => JVal.null),
      ("fallback_cross_office", JVal.b true),
      ("geo", JVal.obj [("lat", JVal.q ai.Lat), ("lon", JVal.q ai.Lon),
        ("confidence", JVal.q ai.Confidence)])]).getField "attempts" =
      some (JVal.arr ([buildAttempt "LOCAL" office loc
        (if loc.Eligible.isEmpty then
          (if loc.ReasonCode == "" then "NO_ELIGIBLE_MANAGERS" else loc.ReasonCode)
         else "") false] ++ [buildAttempt "GLOBAL" "" glob glob.ReasonCode true]))
    from by simp [JVal.getField, List.find?]]
  dsimp only [Option.bind]
  rw [show JVal.getIdx (JVal.arr ([buildAttempt "LOCAL" office loc
      (if loc.Eligible.isEmpty then
        (if loc.ReasonCode == "" then "NO_ELIGIBLE_MANAGERS" else loc.ReasonCode)
       else "") false] ++ [buildAttempt "GLOBAL" "" glob glob.ReasonCode true])) 1 =
      some (buildAttempt "GLOBAL" "" glob glob.ReasonCode true) from by
    simp [JVal.getIdx]]
  dsimp only [Option.bind]
  exact buildAttempt_failed_reason "GLOBAL" "" glob hrc true

/-- C5: when both the local and the global pass are empty, the outcome is
`UNASSIGNED` with reason code `NO_ELIGIBLE_MANAGERS_GLOBAL`, the
unassigned-reason histogram is bumped at the global stage failure code
(falling back to the outer code only when the stage code is empty), and the
reasoning record's GLOBAL attempt carries that stage failure code. -/
theorem c5_unassigned_global_preserves_stage_reason
    (ctx : RunCtx) (st : RunState) (t : Ticket) (ai0 : AIAnalysis) (lat : Int)
    (office : String) (usedGeo : Bool) (cross : CrossOfficeResult)
    (henr : ctx.enrich t = Except.ok (ai0, lat))
    (hsel : SelectOffice ctx.dist t.ID (normalizeAI ai0) ctx.units = (office, usedGeo))
    (helig : (FilterEligibleManagers
        (applyLoads (managerByOffice ctx.allManagers office) st.loads) t
        (normalizeAI ai0)).Eligible.isEmpty = true)
    (hcross : cross = EvaluateCrossOffice
        (applyLoads (managerByOffice ctx.allManagers office) st.loads)
        (applyLoads ctx.allManagers st.loads) t (normalizeAI ai0))
    (hunassigned : cross.Assigned = false) :
    cross.ReasonCode = "NO_ELIGIBLE_MANAGERS_GLOBAL" ∧
    ∃ st' w, processOneTicket ctx st t = some st' ∧
      st'.writes = st.writes ++ [w] ∧
      w.row = outcomeRow ctx t none office "UNASSIGNED" cross.ReasonCode
        cross.ReasonText
        (buildCrossOfficeReasoning office usedGeo (normalizeAI ai0) cross.Local
          cross.Global true [] none 0) ∧
      st'.topUnassignedReasons = bumpReason st.topUnassignedReasons
        (if cross.Global.ReasonCode = "" then cross.ReasonCode
         else cross.Global.ReasonCode) ∧
      (cross.Global.ReasonCode ≠ "" →
        (((w.row.Reasoning.getField "attempts").bind
            (fun a => JVal.getIdx a 1)).bind
          (fun a => a.getField "failed_reason_code")) =
          some (JVal.s cross.Global.ReasonCode)) := by
  have hrc : cross.ReasonCode = "NO_ELIGIBLE_MANAGERS_GLOBAL" := by
    rw [hcross]
    exact evaluateCrossOffice_reasonCode_of_unassigned (hcross ▸ hunassigned)
  have hgnil : cross.Global.Eligible = [] := by
    rw [hcross]
    exact evaluateCrossOffice_global_nil_of_unassigned (hcross ▸ hunassigned)
  refine ⟨hrc, ?_⟩
  unfold processOneTicket
  rw [henr]
  dsimp only
  rw [hsel]
  dsimp only
  rw [bumpGeoCounters_loads]
  rw [if_pos helig, ← hcross, hunassigned]
  rw [if_neg (by simp : ¬ (false = true))]
  dsimp only [writeAssignment]
  split
  · refine ⟨_,
      ⟨outcomeRow ctx t none office "UNASSIGNED" cross.ReasonCode cross.ReasonText
        (buildCrossOfficeReasoning office usedGeo (normalizeAI ai0) cross.Local
          cross.Global true [] none 0), ctx.dbOk st.nWrites⟩,
      rfl, ?_, rfl, ?_, ?_⟩
    · dsimp only
      rw [bumpGeoCounters_writes, bumpGeoCounters_nWrites]
    · dsimp only
      rw [bumpGeoCounters_topUnassignedReasons]
    · intro hne
      exact buildCrossOfficeReasoning_global_failed_reason office usedGeo
        (normalizeAI ai0) cross.Local cross.Global [] none 0 hgnil hne
  · refine ⟨_,
      ⟨outcomeRow ctx t none office "UNASSIGNED" cross.ReasonCode cross.ReasonText
        (buildCrossOfficeReasoning office usedGeo (normalizeAI ai0) cross.Local
          cross.Global true [] none 0), ctx.dbOk st.nWrites⟩,
      rfl, ?_, rfl, ?_, ?_⟩
    · dsimp only
      rw [bumpGeoCounters_writes, bumpGeoCounters_nWrites]
    · dsimp only
      rw [bumpGeoCounters_topUnassignedReasons]
    · intro hne
      exact buildCrossOfficeReasoning_global_failed_reason office usedGeo
        (normalizeAI ai0) cross.Local cross.Global [] none 0 hgnil hne

/-- Witness for C5 at the scenario of
`TestEvaluateCrossOffice_UnassignedWhenNoVIPAnywhere` (a VIP ticket with no
VIP-skilled manager in any office). -/
theorem c5_unassigned_global_preserves_stage_reason_witness :
    (EvaluateCrossOffice
        (applyLoads (managerByOffice [{ ID := "m1", Office := "ASTANA", Role := "Специалист", Skills := ["RU"] }, { ID := "m2", Office := "ALMATY", Role := "Специалист", Skills := ["ENG"] }] "ASTANA") (initialState [{ ID := "m1", Office := "ASTANA", Role := "Специалист", Skills := ["RU"] }, { ID := "m2", Office := "ALMATY", Role := "Специалист", Skills := ["ENG"] }]).loads)
        (applyLoads [{ ID := "m1", Office := "ASTANA", Role := "Специалист", Skills := ["RU"] }, { ID := "m2", Office := "ALMATY", Role := "Специалист", Skills := ["ENG"] }] (initialState [{ ID := "m1", Office := "ASTANA", Role := "Специалист", Skills := ["RU"] }, { ID := "m2", Office := "ALMATY", Role := "Специалист", Skills := ["ENG"] }]).loads)
        { ID := "t1", Segment := "VIP" }
        (normalizeAI { AType := "Consultation", Priority := 1, Language := "RU" })).ReasonCode =
      "NO_ELIGIBLE_MANAGERS_GLOBAL" :=
  (c5_unassigned_global_preserves_stage_reason
    { dist := fun _ _ _ _ => 0, units := [], allManagers := [{ ID := "m1", Office := "ASTANA", Role := "Специалист", Skills := ["RU"] }, { ID := "m2", Office := "ALMATY", Role := "Специалист", Skills := ["ENG"] }], enrich := fun _ => Except.ok ({ AType := "Consultation", Priority := 1, Language := "RU" }, 0), dbOk := fun _ => true, now := 0, debug := false }
    (initialState [{ ID := "m1", Office := "ASTANA", Role := "Специалист", Skills := ["RU"] }, { ID := "m2", Office := "ALMATY", Role := "Специалист", Skills := ["ENG"] }])
    { ID := "t1", Segment := "VIP" }
    { AType := "Consultation", Priority := 1, Language := "RU" }
    0 "ASTANA" false _
    rfl (by decide) (by decide) rfl (by decide)).1

/-- Witness for C7 at a VIP ticket with one fully qualified manager: the
manager recorded in the `language_rule` stage is also in the `vip_rule` and
`role_rule` stages. -/
theorem c7_stage_monotonicity_witness :
    inStage (FilterEligibleManagers [{ ID := "m1", Office := "ASTANA", Role := "Глав спец", Skills := ["VIP", "RU"] }] { ID := "t1", Segment := "VIP" } { AType := "Consultation", Priority := 1, Language := "RU" }) "vip_rule" { ID := "m1", Office := "ASTANA", Role := "Глав спец", Skills := ["VIP", "RU"] } ∧
    inStage (FilterEligibleManagers [{ ID := "m1", Office := "ASTANA", Role := "Глав спец", Skills := ["VIP", "RU"] }] { ID := "t1", Segment := "VIP" } { AType := "Consultation", Priority := 1, Language := "RU" }) "role_rule" { ID := "m1", Office := "ASTANA", Role := "Глав спец", Skills := ["VIP", "RU"] } :=
  (c7_stage_monotonicity
    [{ ID := "m1", Office := "ASTANA", Role := "Глав спец", Skills := ["VIP", "RU"] }]
    { ID := "t1", Segment := "VIP" }
    { AType := "Consultation", Priority := 1, Language := "RU" }
    { ID := "m1", Office := "ASTANA", Role := "Глав спец", Skills := ["VIP", "RU"] }).2
    ⟨[{ ID := "m1", Office := "ASTANA", Role := "Глав спец", Skills := ["VIP", "RU"] }],
      by decide, by decide⟩

lemma find_single_not_assigned {row : Assignment} {ok : Bool}
    (h : (row.Status == "ASSIGNED") = false) :
    List.find? isCommittedAssignment [⟨row, ok⟩] = none := by
  simp [List.find?, isCommittedAssignment, h]

lemma find_pair_db_fail {row1 row2 : Assignment} {ok2 : Bool}
    (h2 : (row2.Status == "ASSIGNED") = false) :
    List.find? isCommittedAssignment [⟨row1, false⟩, ⟨row2, ok2⟩] = none := by
  simp [List.find?, isCommittedAssignment, h2]

lemma find_single_committed {row : Assignment}
    (h : (row.Status == "ASSIGNED") = true) :
    List.find? isCommittedAssignment [⟨row, true⟩] =
      some ⟨row, true⟩ := by
  simp [List.find?, isCommittedAssignment, h]

/-- One ticket-loop step appends at least one outcome row for this ticket
to the write trace, and updates the in-run load snapshot exactly when a
committed `ASSIGNED` write is among them, bumping the recorded manager. -/
lemma processOneTicket_step (ctx : RunCtx) (st : RunState) (t : Ticket)
    (st' : RunState) (h : processOneTicket ctx st t = some st') :
    ∃ new, st'.writes = st.writes ++ new ∧ new ≠ [] ∧
      (∀ w ∈ new, w.row.TicketID = t.ID) ∧
      (∀ w, new.find? isCommittedAssignment = some w →
        ∃ a, w.row.ManagerID = some a ∧ st'.loads = bumpLoad st.loads a) ∧
      (new.find? isCommittedAssignment = none → st'.loads = st.loads) := by
  unfold processOneTicket at h
  cases he : ctx.enrich t with
  | error e =>
    rw [he] at h
    injection h with h
    subst h
    refine ⟨[⟨_, _⟩], rfl, by simp, ?_, ?_, ?_⟩
    · rintro w hw
      rw [List.mem_singleton] at hw
      subst hw
      rfl
    · intro w hw
      rw [find_single_not_assigned (by simp [outcomeRow])] at hw
      exact Option.noConfusion hw
    · intro _
      rfl
  | ok p =>
    obtain ⟨ai0, lat⟩ := p
    rw [he] at h
    dsimp only at h
    split at h
    · -- local eligibility empty: cross-office path
      split at h
      · -- cross assigned
        rename_i hcross
        split at h
        · rename_i hpick
          exact absurd (pickAssignee_eq_none hpick)
            (evaluateCrossOffice_assigned_global_ne_nil hcross)
        · rename_i assignee top2 hpick
          dsimp only [writeAssignment] at h
          split at h
          · rename_i hdb
            injection h with h
            subst h
            dsimp only
            simp only [bumpGeoCounters_writes, bumpGeoCounters_loads]
            refine ⟨[⟨_, _⟩], rfl, by simp, ?_, ?_, ?_⟩
            · rintro w hw
              rw [List.mem_singleton] at hw
              subst hw
              rfl
            · intro w hw
              rw [hdb] at hw
              rw [find_single_committed (by simp [outcomeRow])] at hw
              injection hw with hw
              subst hw
              exact ⟨assignee.ID, rfl, rfl⟩
            · intro hnone
              rw [hdb] at hnone
              rw [find_single_committed (by simp [outcomeRow])] at hnone
              exact Option.noConfusion hnone
          · injection h with h
            subst h
            dsimp only [writeAssignmentError, writeAssignment]
            simp only [bumpGeoCounters_writes, bumpGeoCounters_loads,
              List.append_assoc]
            refine ⟨[⟨_, _⟩, ⟨_, _⟩], rfl, by simp, ?_, ?_, ?_⟩
            · rintro w hw
              rcases List.mem_pair.mp hw with hw | hw <;> subst hw <;> rfl
            · rename_i hdb
              rw [Bool.not_eq_true] at hdb
              intro w hw
              rw [hdb] at hw
              rw [find_pair_db_fail (by simp [outcomeRow])] at hw
              exact Option.noConfusion hw
            · intro _
              trivial
      · -- cross unassigned
        dsimp only [writeAssignment] at h
        split at h
        · injection h with h
          subst h
          dsimp only
          simp only [bumpGeoCounters_writes, bumpGeoCounters_loads]
          refine ⟨[⟨_, _⟩], rfl, by simp, ?_, ?_, ?_⟩
          · rintro w hw
            rw [List.mem_singleton] at hw
            subst hw
            rfl
          · intro w hw
            rw [find_single_not_assigned (by simp [outcomeRow])] at hw
            exact Option.noConfusion hw
          · intro _
            trivial
        · injection h with h
          subst h
          dsimp only
          simp only [bumpGeoCounters_writes, bumpGeoCounters_loads]
          refine ⟨[⟨_, _⟩], rfl, by simp, ?_, ?_, ?_⟩
          · rintro w hw
            rw [List.mem_singleton] at hw
            subst hw
            rfl
          · intro w hw
            rw [find_single_not_assigned (by simp [outcomeRow])] at hw
            exact Option.noConfusion hw
          · intro _
            trivial
    · -- local eligibility non-empty
      rename_i hel
      split at h
      · rename_i hpick
        exfalso
        rw [pickAssignee_eq_none hpick] at hel
        exact hel rfl
      · rename_i assignee top2 hpick
        dsimp only [writeAssignment] at h
        split at h
        · rename_i hdb
          injection h with h
          subst h
          dsimp only
          simp only [bumpGeoCounters_writes, bumpGeoCounters_loads]
          refine ⟨[⟨_, _⟩], rfl, by simp, ?_, ?_, ?_⟩
          · rintro w hw
            rw [List.mem_singleton] at hw
            subst hw
            rfl
          · intro w hw
            rw [hdb] at hw
            rw [find_single_committed (by simp [outcomeRow])] at hw
            injection hw with hw
            subst hw
            exact ⟨assignee.ID, rfl, rfl⟩
          · intro hnone
            rw [hdb] at hnone
            rw [find_single_committed (by simp [outcomeRow])] at hnone
            exact Option.noConfusion hnone
        · injection h with h
          subst h
          dsimp only [writeAssignmentError, writeAssignment]
          simp only [bumpGeoCounters_writes, bumpGeoCounters_loads,
            List.append_assoc]
          refine ⟨[⟨_, _⟩, ⟨_, _⟩], rfl, by simp, ?_, ?_, ?_⟩
          · rintro w hw
            rcases List.mem_pair.mp hw with hw | hw <;> subst hw <;> rfl
          · rename_i hdb
            rw [Bool.not_eq_true] at hdb
            intro w hw
            rw [hdb] at hw
            rw [find_pair_db_fail (by simp [outcomeRow])] at hw
            exact Option.noConfusion hw
          · intro _
            trivial

lemma seedLoads_eq (managers : List Manager) (id : String) :
    seedLoads managers id =
      (managers.reverse.find? (fun m => m.ID == id)).map (fun m => m.CurrentLoad) := by
  induction managers using List.reverseRecOn with
  | nil => rfl
  | append_singleton ms m ih =>
    unfold seedLoads at ih ⊢
    rw [List.foldl_append]
    simp only [List.foldl_cons, List.foldl_nil, List.reverse_append,
      List.reverse_singleton, List.singleton_append, List.find?]
    by_cases hid : id = m.ID
    · simp [hid]
    · have hne : (m.ID == id) = false :=
        beq_eq_false_iff_ne.mpr (Ne.symm hid)
      rw [hne]
      simp only [if_neg hid]
      exact ih

lemma processLoop_writes (ctx : RunCtx) :
    ∀ (tickets : List Ticket) (st st' : RunState),
      processLoop ctx st tickets = some st' →
      (∀ w ∈ st.writes, w ∈ st'.writes) ∧
      (∀ t ∈ tickets, ∃ w ∈ st'.writes, w.row.TicketID = t.ID) := by
  intro tickets
  induction tickets with
  | nil =>
    intro st st' h
    injection h with h
    subst h
    exact ⟨fun w hw => hw, by simp⟩
  | cons t rest ih =>
    intro st st' h
    unfold processLoop at h
    cases hp : processOneTicket ctx st t with
    | none =>
      rw [hp] at h
      exact Option.noConfusion h
    | some st1 =>
      rw [hp] at h
      obtain ⟨new, hwr, hne, htid, _, _⟩ := processOneTicket_step ctx st t st1 hp
      obtain ⟨mono, cover⟩ := ih st1 st' h
      refine ⟨?_, ?_⟩
      · intro w hw
        exact mono w (hwr ▸ List.mem_append_left _ hw)
      · intro t' ht'
        rcases List.mem_cons.mp ht' with ht' | ht'
        · subst ht'
          obtain ⟨w0, hw0⟩ := List.exists_mem_of_ne_nil new hne
          exact ⟨w0, mono w0 (hwr ▸ List.mem_append_right _ hw0), htid w0 hw0⟩
        · exact cover t' ht'

lemma processOneTicket_aiError (ctx : RunCtx) (st : RunState) (t : Ticket)
    (e : String) (h : ctx.enrich t = Except.error e) :
    processOneTicket ctx st t =
      some (writeAssignmentError ctx { st with aiErrors := st.aiErrors + 1 } t
        "AI_ERROR" "AI enrichment failed" (JVal.obj [("error", JVal.s e)])) := by
  unfold processOneTicket
  rw [h]

/-- C6: manager loads are a run-scoped snapshot. (i) Rosters passed to
filtering/picking are stamped from the snapshot (`applyLoads`), a missing
entry reading 0; (ii) the snapshot is seeded once from the fetched roster
(last entry per ID wins, as for a Go map); (iii) a bump raises exactly the
chosen manager's entry by one; (iv) one ticket-loop step updates the
snapshot exactly when it commits an `ASSIGNED` write, bumping the recorded
manager, so later tickets in the run observe earlier assignments. -/
theorem c6_run_scoped_load_snapshot :
    (∀ (managers : List Manager) (loadMap : String → Option Int),
       (applyLoads managers loadMap).map (fun m => (m.ID, m.CurrentLoad)) =
         managers.map (fun m => (m.ID, (loadMap m.ID).getD 0))) ∧
    (∀ (managers : List Manager) (id : String),
       seedLoads managers id =
         (managers.reverse.find? (fun m => m.ID == id)).map
           (fun m => m.CurrentLoad)) ∧
    (∀ (loadMap : String → Option Int) (a : String),
       bumpLoad loadMap a a = some ((loadMap a).getD 0 + 1) ∧
       ∀ id, id ≠ a → bumpLoad loadMap a id = loadMap id) ∧
    (∀ (ctx : RunCtx) (st : RunState) (t : Ticket) (st' : RunState),
       processOneTicket ctx st t = some st' →
       ∃ new, st'.writes = st.writes ++ new ∧ new ≠ [] ∧
         (∀ w, new.find? isCommittedAssignment = some w →
            ∃ a, w.row.ManagerID = some a ∧ st'.loads = bumpLoad st.loads a) ∧
         (new.find? isCommittedAssignment = none → st'.loads = st.loads)) := by
  refine ⟨?_, ?_, ?_, ?_⟩
  · intro managers loadMap
    simp only [applyLoads, List.map_map]
    rfl
  · exact seedLoads_eq
  · intro loadMap a
    refine ⟨by simp [bumpLoad], ?_⟩
    intro id hne
    simp [bumpLoad, hne]
  · intro ctx st t st' h
    obtain ⟨new, hwr, hne, _, hsome, hnone⟩ := processOneTicket_step ctx st t st' h
    exact ⟨new, hwr, hne, hsome, hnone⟩

/-- Witness for C6 at a one-manager roster and a committed cross-office
assignment: the step appends a committed `ASSIGNED` write and bumps the
assignee's snapshot entry. -/
theorem c6_run_scoped_load_snapshot_witness :
    ∃ st' new,
      processOneTicket { dist := fun _ _ _ _ => 0, units := [], allManagers := [{ ID := "m1" }], enrich := fun _ => Except.ok ({}, 0), dbOk := fun _ => true, now := 0, debug := false } (initialState [{ ID := "m1" }]) { ID := "t1" } = some st' ∧
      st'.writes = (initialState [{ ID := "m1" }]).writes ++ new ∧ new ≠ [] ∧
      (∀ w, new.find? isCommittedAssignment = some w →
        ∃ a, w.row.ManagerID = some a ∧
          st'.loads = bumpLoad (initialState [{ ID := "m1" }]).loads a) ∧
      (new.find? isCommittedAssignment = none →
        st'.loads = (initialState [{ ID := "m1" }]).loads) := by
  obtain ⟨st', hst⟩ :
      ∃ st', processOneTicket { dist := fun _ _ _ _ => 0, units := [], allManagers := [{ ID := "m1" }], enrich := fun _ => Except.ok ({}, 0), dbOk := fun _ => true, now := 0, debug := false } (initialState [{ ID := "m1" }]) { ID := "t1" } = some st' :=
    ⟨_, rfl⟩
  obtain ⟨new, h1, h2, h3, h4⟩ :=
    c6_run_scoped_load_snapshot.2.2.2
      { dist := fun _ _ _ _ => 0, units := [], allManagers := [{ ID := "m1" }], enrich := fun _ => Except.ok ({}, 0), dbOk := fun _ => true, now := 0, debug := false }
      (initialState [{ ID := "m1" }]) { ID := "t1" } st' hst
  exact ⟨st', new, hst, h1, h2, h3, h4⟩

/-- C8 (amended): only a setup-time fetch failure makes `ProcessTickets`
return an error (one conjunct per fetch); when all fetches succeed the run
returns `ok` and every ticket gets at least one recorded outcome row; per
ticket, an enrichment failure bumps the error counter, records an
`ERROR`/`AI_ERROR` outcome and the step continues (returns a next state);
a persistence failure on an assignment write — local or cross-office —
records the failed `ASSIGNED` attempt plus an `ERROR`/`DB_ERROR` outcome,
leaves the load snapshot and assigned counter untouched, and likewise
continues; but a persistence failure on an `UNASSIGNED` outcome is
discarded: the failed write keeps the stage reason code and no `DB_ERROR`
outcome is recorded. -/
theorem c8_error_isolation :
    (∀ (e : String) fu fm enrich dbOk dist (now : Int) (debug : Bool),
       ProcessTickets (Except.error e) fu fm enrich dbOk dist now debug =
         Except.error e) ∧
    (∀ (ts : List Ticket) (e : String) fm enrich dbOk dist (now : Int)
       (debug : Bool),
       ProcessTickets (Except.ok ts) (Except.error e) fm enrich dbOk dist now
         debug = Except.error e) ∧
    (∀ (ts : List Ticket) (us : List BusinessUnit) (e : String) enrich dbOk
       dist (now : Int) (debug : Bool),
       ProcessTickets (Except.ok ts) (Except.ok us) (Except.error e) enrich
         dbOk dist now debug = Except.error e) ∧
    (∀ (ts : List Ticket) (us : List BusinessUnit) (ms : List Manager) enrich
       dbOk dist (now : Int) (debug : Bool),
       ∃ st summary,
         ProcessTickets (Except.ok ts) (Except.ok us) (Except.ok ms) enrich
           dbOk dist now debug = Except.ok (st, summary) ∧
         ∀ t ∈ ts, ∃ w ∈ st.writes, w.row.TicketID = t.ID) ∧
    (∀ (ctx : RunCtx) (st : RunState) (t : Ticket) (e : String),
       ctx.enrich t = Except.error e →
       ∃ st' w, processOneTicket ctx st t = some st' ∧
         st'.aiErrors = st.aiErrors + 1 ∧
         st'.writes = st.writes ++ [w] ∧
         w.row.Status = "ERROR" ∧ w.row.ReasonCode = "AI_ERROR" ∧
         st'.loads = st.loads) ∧
    (∀ (ctx : RunCtx) (st : RunState) (t : Ticket) (ai0 : AIAnalysis)
       (lat : Int) (office : String) (usedGeo : Bool) (assignee : Manager)
       (top2 : List Manager),
       ctx.enrich t = Except.ok (ai0, lat) →
       SelectOffice ctx.dist t.ID (normalizeAI ai0) ctx.units =
         (office, usedGeo) →
       (FilterEligibleManagers
           (applyLoads (managerByOffice ctx.allManagers office) st.loads) t
           (normalizeAI ai0)).Eligible.isEmpty = false →
       PickAssignee t.ID
           (FilterEligibleManagers
             (applyLoads (managerByOffice ctx.allManagers office) st.loads) t
             (normalizeAI ai0)).Eligible = some (assignee, top2) →
       ctx.dbOk st.nWrites = false →
       ∃ st' w1 w2, processOneTicket ctx st t = some st' ∧
         st'.writes = st.writes ++ [w1, w2] ∧ w1.ok = false ∧
         w1.row.Status = "ASSIGNED" ∧
         w2.row.Status = "ERROR" ∧ w2.row.ReasonCode = "DB_ERROR" ∧
         st'.loads = st.loads ∧ st'.assignedCount = st.assignedCount) ∧
    (∀ (ctx : RunCtx) (st : RunState) (t : Ticket) (ai0 : AIAnalysis)
       (lat : Int) (office : String) (usedGeo : Bool)
       (cross : CrossOfficeResult) (assignee : Manager) (top2 : List Manager),
       ctx.enrich t = Except.ok (ai0, lat) →
       SelectOffice ctx.dist t.ID (normalizeAI ai0) ctx.units =
         (office, usedGeo) →
       (FilterEligibleManagers
           (applyLoads (managerByOffice ctx.allManagers office) st.loads) t
           (normalizeAI ai0)).Eligible.isEmpty = true →
       cross = EvaluateCrossOffice
           (applyLoads (managerByOffice ctx.allManagers office) st.loads)
           (applyLoads ctx.allManagers st.loads) t (normalizeAI ai0) →
       cross.Assigned = true →
       PickAssignee t.ID cross.Global.Eligible = some (assignee, top2) →
       ctx.dbOk st.nWrites = false →
       ∃ st' w1 w2, processOneTicket ctx st t = some st' ∧
         st'.writes = st.writes ++ [w1, w2] ∧ w1.ok = false ∧
         w1.row.Status = "ASSIGNED" ∧
         w1.row.ReasonCode = "ASSIGNED_CROSS_OFFICE" ∧
         w2.row.Status = "ERROR" ∧ w2.row.ReasonCode = "DB_ERROR" ∧
         st'.loads = st.loads ∧ st'.assignedCount = st.assignedCount) ∧
    (∀ (ctx : RunCtx) (st : RunState) (t : Ticket) (ai0 : AIAnalysis)
       (lat : Int) (office : String) (usedGeo : Bool)
       (cross : CrossOfficeResult),
       ctx.enrich t = Except.ok (ai0, lat) →
       SelectOffice ctx.dist t.ID (normalizeAI ai0) ctx.units =
         (office, usedGeo) →
       (FilterEligibleManagers
           (applyLoads (managerByOffice ctx.allManagers office) st.loads) t
           (normalizeAI ai0)).Eligible.isEmpty = true →
       cross = EvaluateCrossOffice
           (applyLoads (managerByOffice ctx.allManagers office) st.loads)
           (applyLoads ctx.allManagers st.loads) t (normalizeAI ai0) →
       cross.Assigned = false →
       ctx.dbOk st.nWrites = false →
       ∃ st' w, processOneTicket ctx st t = some st' ∧
         st'.writes = st.writes ++ [w] ∧ w.ok = false ∧
         w.row.Status = "UNASSIGNED" ∧
         w.row.ReasonCode = "NO_ELIGIBLE_MANAGERS_GLOBAL" ∧
         w.row.ReasonCode ≠ "DB_ERROR") := by
  refine ⟨?_, ?_, ?_, ?_, ?_, ?_, ?_, ?_⟩
  · intro e fu fm enrich dbOk dist now debug
    rfl
  · intro ts e fm enrich dbOk dist now debug
    rfl
  · intro ts us e enrich dbOk dist now debug
    rfl
  · intro ts us ms enrich dbOk dist now debug
    cases hloop : processLoop
        { dist := dist, units := us, allManagers := ms, enrich := enrich,
          dbOk := dbOk, now := now, debug := debug }
        (initialState ms) ts with
    | none =>
      have := processLoop_isSome
        { dist := dist, units := us, allManagers := ms, enrich := enrich,
          dbOk := dbOk, now := now, debug := debug } ts (initialState ms)
      rw [hloop] at this
      exact Bool.noConfusion this
    | some st =>
      refine ⟨st, buildSummary
        { dist := dist, units := us, allManagers := ms, enrich := enrich,
          dbOk := dbOk, now := now, debug := debug } ts st, ?_, ?_⟩
      · unfold ProcessTickets
        dsimp only [bind, Except.bind]
        rw [hloop]
      · exact (processLoop_writes _ ts (initialState ms) st hloop).2
  · intro ctx st t e he
    exact ⟨_,
      ⟨outcomeRow ctx t none "UNKNOWN" "ERROR" "AI_ERROR"
        "AI enrichment failed" (JVal.obj [("error", JVal.s e)]),
        ctx.dbOk st.nWrites⟩,
      processOneTicket_aiError ctx st t e he, rfl, rfl, rfl, rfl, rfl⟩
  · intro ctx st t ai0 lat office usedGeo assignee top2 henr hsel helig hpick
      hdb
    unfold processOneTicket
    rw [henr]
    dsimp only
    rw [hsel]
    dsimp only
    rw [bumpGeoCounters_loads]
    rw [if_neg (by simp [helig])]
    rw [hpick]
    dsimp only [writeAssignment]
    rw [bumpGeoCounters_nWrites]
    dsimp only
    rw [hdb]
    rw [if_neg (by simp : ¬ (false = true))]
    dsimp only [writeAssignmentError, writeAssignment]
    refine ⟨_,
      ⟨outcomeRow ctx t (some assignee) office "ASSIGNED" "ASSIGNED_LOCAL"
        "Assigned in local office"
        (buildCrossOfficeReasoning office usedGeo (normalizeAI ai0)
          (FilterEligibleManagers
            (applyLoads (managerByOffice ctx.allManagers office) st.loads) t
            (normalizeAI ai0)) EligibilityResult.zero false top2
          (some assignee) (HashStringToUint64 t.ID % top2.length)), false⟩,
      ⟨outcomeRow ctx t none "UNKNOWN" "ERROR" "DB_ERROR"
        "Assignment write failed" (JVal.obj [("error", JVal.s "tx failed")]),
        ctx.dbOk (st.nWrites + 1)⟩,
      rfl, ?_, rfl, rfl, rfl, rfl, ?_, ?_⟩
    · dsimp only
      rw [bumpGeoCounters_writes, List.append_assoc]
      rfl
    · dsimp only
      rw [bumpGeoCounters_loads]
    · dsimp only
      rw [bumpGeoCounters_assignedCount]
  · intro ctx st t ai0 lat office usedGeo cross assignee top2 henr hsel helig
      hcross hassigned hpick hdb
    have hrc : cross.ReasonCode = "ASSIGNED_CROSS_OFFICE" := by
      rw [hcross]
      exact evaluateCrossOffice_reasonCode_of_assigned (hcross ▸ hassigned)
    unfold processOneTicket
    rw [henr]
    dsimp only
    rw [hsel]
    dsimp only
    rw [bumpGeoCounters_loads]
    rw [if_pos helig, ← hcross, if_pos hassigned, hpick]
    dsimp only [writeAssignment]
    rw [bumpGeoCounters_nWrites]
    dsimp only
    rw [hdb]
    rw [if_neg (by simp : ¬ (false = true))]
    dsimp only [writeAssignmentError, writeAssignment]
    refine ⟨_,
      ⟨outcomeRow ctx t (some assignee)
        (if assignee.Office = "" then office else assignee.Office) "ASSIGNED"
        cross.ReasonCode cross.ReasonText
        (buildCrossOfficeReasoning office usedGeo (normalizeAI ai0) cross.Local
          cross.Global true top2 (some assignee)
          (HashStringToUint64 t.ID % top2.length)), false⟩,
      ⟨outcomeRow ctx t none "UNKNOWN" "ERROR" "DB_ERROR"
        "Assignment write failed" (JVal.obj [("error", JVal.s "tx failed")]),
        ctx.dbOk (st.nWrites + 1)⟩,
      rfl, ?_, rfl, rfl, hrc, rfl, rfl, ?_, ?_⟩
    · dsimp only
      rw [bumpGeoCounters_writes, List.append_assoc]
      rfl
    · dsimp only
      rw [bumpGeoCounters_loads]
    · dsimp only
      rw [bumpGeoCounters_assignedCount]
  · intro ctx st t ai0 lat office usedGeo cross henr hsel helig hcross
      hunassigned hdb
    have hrc : cross.ReasonCode = "NO_ELIGIBLE_MANAGERS_GLOBAL" := by
      rw [hcross]
      exact evaluateCrossOffice_reasonCode_of_unassigned (hcross ▸ hunassigned)
    unfold processOneTicket
    rw [henr]
    dsimp only
    rw [hsel]
    dsimp only
    rw [bumpGeoCounters_loads]
    rw [if_pos helig, ← hcross, hunassigned]
    rw [if_neg (by simp : ¬ (false = true))]
    dsimp only [writeAssignment]
    rw [bumpGeoCounters_nWrites]
    rw [hdb]
    split
    · refine ⟨_,
        ⟨outcomeRow ctx t none office "UNASSIGNED" cross.ReasonCode
          cross.ReasonText
          (buildCrossOfficeReasoning office usedGeo (normalizeAI ai0)
            cross.Local cross.Global true [] none 0), false⟩,
        rfl, ?_, rfl, rfl, hrc, ?_⟩
      · dsimp only
        rw [bumpGeoCounters_writes]
      · rw [hrc]
        simp [outcomeRow]
    · refine ⟨_,
        ⟨outcomeRow ctx t none office "UNASSIGNED" cross.ReasonCode
          cross.ReasonText
          (buildCrossOfficeReasoning office usedGeo (normalizeAI ai0)
            cross.Local cross.Global true [] none 0), false⟩,
        rfl, ?_, rfl, rfl, hrc, ?_⟩
      · dsimp only
        rw [bumpGeoCounters_writes]
      · rw [hrc]
        simp [outcomeRow]

/-- Witness for C8 at a failing enricher: the step records an
`ERROR`/`AI_ERROR` outcome, bumps the error counter and continues. -/
theorem c8_error_isolation_witness :
    ∃ st' w, processOneTicket { dist := fun _ _ _ _ => 0, units := [], allManagers := [], enrich := fun _ => Except.error "boom", dbOk := fun _ => true, now := 0, debug := false } (initialState []) { ID := "t9" } = some st' ∧
      st'.aiErrors = (initialState []).aiErrors + 1 ∧
      st'.writes = (initialState []).writes ++ [w] ∧
      w.row.Status = "ERROR" ∧ w.row.ReasonCode = "AI_ERROR" ∧
      st'.loads = (initialState []).loads :=
  c8_error_isolation.2.2.2.2.1
    { dist := fun _ _ _ _ => 0, units := [], allManagers := [], enrich := fun _ => Except.error "boom", dbOk := fun _ => true, now := 0, debug := false }
    (initialState []) { ID := "t9" } "boom" rfl

/-- Counterexample to C8 as stated: on the unassigned path the write
error is discarded, so with a database that rejects every write the step
records a failed `UNASSIGNED` row and no `DB_ERROR` outcome at all —
refuting "a persistence failure records a DB_ERROR outcome" in general. -/
theorem c8_error_isolation_counterexample :
    ∃ st', processOneTicket
      { dist := fun _ _ _ _ => 0, units := [], allManagers := [], enrich := fun _ => Except.ok ({}, 0), dbOk := fun _ => false, now := 0, debug := false }
      (initialState []) { ID := "t1" } = some st' ∧
      (∃ w ∈ st'.writes, w.ok = false) ∧
      ∀ w ∈ st'.writes, w.row.ReasonCode ≠ "DB_ERROR" :=
  ⟨_, rfl, by decide, by decide⟩

lemma bumpGeoCounters_enrichedCount (st : RunState) (b : Bool) :
    (bumpGeoCounters st b).enrichedCount = st.enrichedCount := by
  unfold bumpGeoCounters
  split <;> rfl

lemma bumpGeoCounters_latencyTotal (st : RunState) (b : Bool) :
    (bumpGeoCounters st b).latencyTotal = st.latencyTotal := by
  unfold bumpGeoCounters
  split <;> rfl

lemma bumpGeoCounters_assignedLocalCount (st : RunState) (b : Bool) :
    (bumpGeoCounters st b).assignedLocalCount = st.assignedLocalCount := by
  unfold bumpGeoCounters
  split <;> rfl

lemma bumpGeoCounters_assignedCrossOfficeCount (st : RunState) (b : Bool) :
    (bumpGeoCounters st b).assignedCrossOfficeCount =
      st.assignedCrossOfficeCount := by
  unfold bumpGeoCounters
  split <;> rfl

lemma bumpGeoCounters_unassignedCount (st : RunState) (b : Bool) :
    (bumpGeoCounters st b).unassignedCount = st.unassignedCount := by
  unfold bumpGeoCounters
  split <;> rfl

lemma bumpGeoCounters_unassignedGlobalCount (st : RunState) (b : Bool) :
    (bumpGeoCounters st b).unassignedGlobalCount = st.unassignedGlobalCount := by
  unfold bumpGeoCounters
  split <;> rfl

lemma bumpGeoCounters_geoCoverage (st : RunState) (b : Bool) :
    (bumpGeoCounters st b).geoCoverage =
      if b then st.geoCoverage + 1 else st.geoCoverage := by
  unfold bumpGeoCounters
  cases b <;> simp

lemma bumpGeoCounters_fallbackCount (st : RunState) (b : Bool) :
    (bumpGeoCounters st b).fallbackCount =
      if b then st.fallbackCount else st.fallbackCount + 1 := by
  unfold bumpGeoCounters
  cases b <;> simp

lemma outcomeRow_now (ctx : RunCtx) (n : Int) (t : Ticket)
    (m : Option Manager) (office status rc rt : String) (r : JVal) :
    outcomeRow { ctx with now := n } t m office status rc rt r =
      { outcomeRow ctx t m office status rc rt r with AssignedAt := n } := rfl

lemma writeAssignmentError_restamp (ctx : RunCtx) (n : Int) (st : RunState)
    (t : Ticket) (rc rt : String) (d : JVal) :
    writeAssignmentError { ctx with now := n } (restampState n st) t rc rt d =
      restampState n (writeAssignmentError ctx st t rc rt d) := by
  dsimp only [writeAssignmentError, writeAssignment, restampState]
  simp [restampState, outcomeRow_now, restampWrite, List.map_append]

lemma processOneTicket_restamp (ctx : RunCtx) (n : Int) (st : RunState)
    (t : Ticket) :
    processOneTicket { ctx with now := n } (restampState n st) t =
      (processOneTicket ctx st t).map (restampState n) := by
  unfold processOneTicket
  cases he : ctx.enrich t with
  | error e =>
    dsimp only [Option.map]
    exact congrArg some
      (writeAssignmentError_restamp ctx n { st with aiErrors := st.aiErrors + 1 }
        t "AI_ERROR" "AI enrichment failed" (JVal.obj [("error", JVal.s e)]))
  | ok p =>
    obtain ⟨ai0, lat⟩ := p
    dsimp only [restampState, writeAssignment, writeAssignmentError]
    simp only [bumpGeoCounters_loads, bumpGeoCounters_writes,
      bumpGeoCounters_nWrites, bumpGeoCounters_samples, bumpGeoCounters_aiErrors,
      bumpGeoCounters_assignedCount, bumpGeoCounters_topUnassignedReasons,
      bumpGeoCounters_enrichedCount, bumpGeoCounters_latencyTotal,
      bumpGeoCounters_geoCoverage, bumpGeoCounters_fallbackCount,
      bumpGeoCounters_assignedLocalCount, bumpGeoCounters_assignedCrossOfficeCount,
      bumpGeoCounters_unassignedCount, bumpGeoCounters_unassignedGlobalCount]
    cases hel : (FilterEligibleManagers
        (applyLoads (managerByOffice ctx.allManagers
          (SelectOffice ctx.dist t.ID (normalizeAI ai0) ctx.units).1) st.loads)
        t (normalizeAI ai0)).Eligible.isEmpty with
    | true =>
      cases hcr : (EvaluateCrossOffice
          (applyLoads (managerByOffice ctx.allManagers
            (SelectOffice ctx.dist t.ID (normalizeAI ai0) ctx.units).1) st.loads)
          (applyLoads ctx.allManagers st.loads) t (normalizeAI ai0)).Assigned with
      | true =>
        cases hpk : PickAssignee t.ID (EvaluateCrossOffice
            (applyLoads (managerByOffice ctx.allManagers
              (SelectOffice ctx.dist t.ID (normalizeAI ai0) ctx.units).1) st.loads)
            (applyLoads ctx.allManagers st.loads) t
            (normalizeAI ai0)).Global.Eligible with
        | none => simp [Option.map]
        | some pr =>
          obtain ⟨assignee, top2⟩ := pr
          cases hdb : ctx.dbOk st.nWrites with
          | true => simp [restampState, outcomeRow_now, restampWrite, List.map_append]
          | false => simp [restampState, outcomeRow_now, restampWrite, List.map_append]
      | false =>
        cases hdbg : ctx.debug && decide (st.samples.length < 5) with
        | true => simp [restampState, outcomeRow_now, restampWrite, List.map_append]
        | false => simp [restampState, outcomeRow_now, restampWrite, List.map_append]
    | false =>
      cases hpk : PickAssignee t.ID (FilterEligibleManagers
          (applyLoads (managerByOffice ctx.allManagers
            (SelectOffice ctx.dist t.ID (normalizeAI ai0) ctx.units).1) st.loads)
          t (normalizeAI ai0)).Eligible with
      | none => simp [Option.map]
      | some pr =>
        obtain ⟨assignee, top2⟩ := pr
        cases hdb : ctx.dbOk st.nWrites with
        | true => simp [restampState, outcomeRow_now, restampWrite, List.map_append]
        | false => simp [restampState, outcomeRow_now, restampWrite, List.map_append]

lemma processLoop_restamp (ctx : RunCtx) (n : Int) :
    ∀ (tickets : List Ticket) (st : RunState),
      processLoop { ctx with now := n } (restampState n st) tickets =
        (processLoop ctx st tickets).map (restampState n) := by
  intro tickets
  induction tickets with
  | nil => intro st; rfl
  | cons t rest ih =>
    intro st
    unfold processLoop
    rw [processOneTicket_restamp]
    cases hp : processOneTicket ctx st t with
    | none => rfl
    | some st1 =>
      dsimp only [Option.map]
      exact ih st1

lemma buildSummary_restamp (ctx : RunCtx) (n : Int) (tickets : List Ticket)
    (st : RunState) :
    buildSummary { ctx with now := n } tickets (restampState n st) =
      restampSummary n (buildSummary ctx tickets st) := rfl

/-- C9: the reasoning record of every decision is a pure function of its
inputs; the wall clock contributes only the outer rows' `AssignedAt` and
the summary events' timestamps.  Running the whole pipeline with a
different clock yields the same result up to restamping those two
timestamp fields; in particular every reasoning payload is unchanged. -/
theorem c9_reasoning_clock_independent
    (fetchTickets : Except String (List Ticket))
    (fetchUnits : Except String (List BusinessUnit))
    (fetchManagers : Except String (List Manager))
    (enrich : Ticket → Except String (AIAnalysis × Int)) (dbOk : Nat → Bool)
    (dist : Rat → Rat → Rat → Rat → Rat) (n1 n2 : Int) (debug : Bool) :
    ProcessTickets fetchTickets fetchUnits fetchManagers enrich dbOk dist n2
        debug =
      (ProcessTickets fetchTickets fetchUnits fetchManagers enrich dbOk dist n1
        debug).map
        (fun p => (restampState n2 p.1, restampSummary n2 p.2)) := by
  cases fetchTickets with
  | error e => rfl
  | ok ts =>
    cases fetchUnits with
    | error e => rfl
    | ok us =>
      cases fetchManagers with
      | error e => rfl
      | ok ms =>
        unfold ProcessTickets
        dsimp only [bind, Except.bind]
        have key : processLoop
            { dist := dist, units := us, allManagers := ms, enrich := enrich,
              dbOk := dbOk, now := n2, debug := debug }
            (initialState ms) ts =
            (processLoop
              { dist := dist, units := us, allManagers := ms, enrich := enrich,
                dbOk := dbOk, now := n1, debug := debug }
              (initialState ms) ts).map (restampState n2) :=
          processLoop_restamp
            { dist := dist, units := us, allManagers := ms, enrich := enrich,
              dbOk := dbOk, now := n1, debug := debug } n2 ts (initialState ms)
        rw [key]
        cases hloop : processLoop
            { dist := dist, units := us, allManagers := ms, enrich := enrich,
              dbOk := dbOk, now := n1, debug := debug }
            (initialState ms) ts with
        | none => rfl
        | some stf =>
          dsimp only [Option.map, Except.map]
          exact congrArg (fun s => Except.ok (restampState n2 stf, s))
            (buildSummary_restamp
              { dist := dist, units := us, allManagers := ms, enrich := enrich,
                dbOk := dbOk, now := n1, debug := debug } n2 ts stf)

end FreedomCase
